import Mathlib

/-!
# Motion tracker: pose-state updates of `src/motiontracker.cc`

A shallow embedding of the three trackers of `motiontracker.cc`
(`ChessboardTracker`, `ColorTracker`, `ColorCrossTracker`) as state-passing
functions, and theorems about which frames change the published pose.

Conventions.

* `float`/`double` values are idealised as rationals (`ℚ`); rounding is not
  modelled.  The properties below concern which fields are written and with
  which expression, not rounding error.
* The OpenCV primitives called by the trackers are parameters, collected in
  the structure `OpenCV`.
* A member function `void C::f(args)` becomes `f : C → args → C` (old object
  in, new object out); member functions that return a value or may throw
  return a pair.
* A `cv::Mat` is a header that may share its pixel data.  The one member
  where sharing outlives a call, `m_rotm`, is modelled as a reference
  (`MatRef`); every other value is copied where the source copies it.
-/

namespace MotionTrackerModel

/-! ## Data model -/

/-- The value types `cv::Vec3f`, `cv::Point3f` and `CvPoint3D32f`. -/
structure Vec3 where
  x : ℚ
  y : ℚ
  z : ℚ
  deriving DecidableEq, Repr

/-- The value types `cv::Point2f` and `CvPoint2D32f`. -/
structure Point2 where
  x : ℚ
  y : ℚ
  deriving DecidableEq, Repr

/-- A 3x3 matrix stored row-major, as `float rotation_matrix[9]`:
    field `rk` is `rotation_matrix[k]`. -/
structure Mat33 where
  r0 : ℚ
  r1 : ℚ
  r2 : ℚ
  r3 : ℚ
  r4 : ℚ
  r5 : ℚ
  r6 : ℚ
  r7 : ℚ
  r8 : ℚ
  deriving DecidableEq, Repr

/-- The matrix `cv::Mat::eye(3,3,CV_32F)`. -/
def Mat33.eye : Mat33 := ⟨1, 0, 0, 0, 1, 0, 0, 0, 1⟩

/-- The `cv::Mat` header held in the member `m_rotm`.  Assigning one `cv::Mat`
    to another shares the data, it does not copy it.

    * `owned data`: the header owns its buffer, as the matrix built by
      `cv::Mat::eye` in the constructor does.
    * `deadLocal`: the header points at `float rotation_matrix[9]`, the local
      array of a call of `ColorCrossTracker::solvePOSIT` that has returned
      (`cv::Mat rotm(3, 3, CV_32FC1, rotation_matrix)` wraps the array
      without copying, and `m_rotm = rotm` shares it). -/
inductive MatRef
  | owned (data : Mat33)
  | deadLocal
  deriving DecidableEq, Repr

/-- A `cv::Scalar` restricted to the three channels the trackers use. -/
structure Scalar where
  v0 : Int
  v1 : Int
  v2 : Int
  deriving DecidableEq, Repr

/-- An image `cv::Mat`: rows of pixels, each pixel a list of channel values. -/
abbrev Mat := List (List (List Int))

/-- The three fields of `cv::Moments` that the trackers read. -/
structure Moments where
  m00 : ℚ
  m10 : ℚ
  m01 : ℚ
  deriving DecidableEq, Repr

/-- Modelled from the spec: the class `FPSCounter` is declared in a header
    that is not part of the sources at hand.  The spec calls it "a rolling
    frame-rate counter" that frame processing "advances"; the model records
    how many times `operator()` has been applied. -/
structure FPSCounter where
  ticks : Nat
  deriving DecidableEq, Repr

/-- Modelled from the spec: `FPSCounter::operator()`, written `m_counter()` in
    the source, advances the counter by one processed frame. -/
def FPSCounter.call (c : FPSCounter) : FPSCounter := ⟨c.ticks + 1⟩

/-- The struct `CalibrationParameters`: camera intrinsics, distortion
    coefficients, and four integer arrays read with `.at<int>(i)`, `i = 0..3`. -/
structure CalibrationParameters where
  intrinsic_parameters : List ℚ
  distortion_coeffs : List ℚ
  hues : Fin 4 → Int
  dHues : Fin 4 → Int
  satval_l : Fin 4 → Int
  satval_h : Fin 4 → Int

/-- The library and platform primitives the trackers call.  Each field is the
    input/output contract of one call as it appears in `motiontracker.cc`;
    output parameters become results. -/
structure OpenCV where
  /-- The call `cv::cvtColor(frame, imgHSV, CV_BGR2HSV)`. -/
  cvtColor : Mat → Mat
  /-- The call `cv::inRange(src, lowerb, upperb, thresh)`. -/
  inRange : Mat → Scalar → Scalar → Mat
  /-- The call `cv::moments(thresh, true)`. -/
  moments : Mat → Moments
  /-- The call `cv::findChessboardCorners(frame, size, corners, flags)`:
      the returned flag and the contents of `corners` afterwards. -/
  findChessboardCorners : Mat → Nat × Nat → Bool × List Point2
  /-- The call `cv::solvePnP(object, image, K, D, rvec, tvec, false)`:
      the pair `(rvec, tvec)`. -/
  solvePnP : List Vec3 → List Point2 → List ℚ → List ℚ → Vec3 × Vec3
  /-- The call `cv::projectPoints(object, rvec, tvec, K, D, out)`. -/
  projectPoints : List Vec3 → Vec3 → Vec3 → List ℚ → List ℚ → List Point2
  /-- The call `cvPOSIT(positObject, imagePoints, focal, criteria, R, t)`,
      with the POSIT object represented by its model points:
      the pair `(rotation_matrix, translation_vector)`. -/
  cvPOSIT : List Vec3 → List Point2 → ℚ → Mat33 × Vec3
  /-- The call `cv::Rodrigues(rotm, rot)`. -/
  Rodrigues : Mat33 → Vec3
  /-- The `int` produced by converting a non-finite `double` (the result of a
      division by zero) to `int`.  C++ leaves this undefined; x86 yields
      `INT_MIN`. -/
  indefinite : Int

/-- Conversion `double → int` of a finite value: truncation toward zero. -/
def truncToInt (q : ℚ) : Int := if 0 ≤ q then ⌊q⌋ else ⌈q⌉

/-- The statement `int x = num / den;` with `double` operands: the quotient
    truncated toward zero, or the platform's `indefinite` value when the
    divisor is zero (`0.0/0.0` is NaN, `a/0.0` is infinite).  Quotients are
    centroid coordinates, bounded by the image size, so the `int` range is
    not exceeded for finite values. -/
def divToInt (cv : OpenCV) (num den : ℚ) : Int :=
  if den = 0 then cv.indefinite else truncToInt (num / den)

/-- The data members of the base class `MotionTracker` read by the accessors
    `getPosition`, `getRotation`, `getRotationMatrix` and `getFPS`. -/
structure MotionTracker where
  m_pos : Vec3
  m_rot : Vec3
  m_rotm : MatRef
  m_counter : FPSCounter
  deriving DecidableEq, Repr

/-- The constructor `MotionTracker::MotionTracker`:
    `m_pos(), m_rot(), m_rotm(cv::Mat::eye(3,3,CV_32F)), m_counter(5)`.
    The argument 5 configures the counter class, whose declaration is not
    among the sources; a fresh counter has recorded no frame. -/
def MotionTracker.new : MotionTracker :=
  { m_pos := ⟨0, 0, 0⟩, m_rot := ⟨0, 0, 0⟩, m_rotm := MatRef.owned Mat33.eye,
    m_counter := ⟨0⟩ }

/-- The accessor `MotionTracker::getRotationMatrix`, as the nine entries a
    caller reads through the returned header.  For an owning header these are
    its data.  For a header over the local array of a finished `solvePOSIT`
    call they are whatever that region of the stack holds at the moment of
    the read; the program does not determine it, so it is the parameter
    `deadStack`. -/
def MotionTracker.getRotationMatrix (deadStack : Mat33) (t : MotionTracker) : Mat33 :=
  match t.m_rotm with
  | MatRef.owned data => data
  | MatRef.deadLocal => deadStack

/-! ## ColorTracker -/

/-- The class `ColorTracker`. -/
structure ColorTracker extends MotionTracker where
  m_hue : Int
  deriving DecidableEq, Repr

/-- The constructor `ColorTracker::ColorTracker(webcam, hue)`. -/
def ColorTracker.new (hue : Int) : ColorTracker :=
  { MotionTracker.new with m_hue := hue }

/-- The thresholded mask `thresh` computed by `ColorTracker::frameEvent`. -/
def ColorTracker.thresh (cv : OpenCV) (t : ColorTracker) (frame : Mat) : Mat :=
  let dH : Int := 20
  let imgHSV := cv.cvtColor frame
  cv.inRange imgHSV ⟨t.m_hue - dH, 120, 120⟩ ⟨t.m_hue + dH, 255, 255⟩

/-- The member function `ColorTracker::frameEvent`. -/
def ColorTracker.frameEvent (cv : OpenCV) (t : ColorTracker) (frame : Mat) : ColorTracker :=
  let thresh := ColorTracker.thresh cv t frame
  let m := cv.moments thresh
  let x : Int := divToInt cv m.m10 m.m00
  let y : Int := divToInt cv m.m01 m.m00
  { t with m_pos := ⟨(x : ℚ), (y : ℚ), 0⟩, m_counter := t.m_counter.call }

/-! ## ChessboardTracker -/

/-- The class `ChessboardTracker`.  The member types come from a header that
    is not among the sources; the integer members are taken as `int`. -/
structure ChessboardTracker extends MotionTracker where
  m_calibParams : CalibrationParameters
  m_boardScaleFactor : Nat
  m_boardH : Nat
  m_numCorners : Nat
  m_boardSize : Nat × Nat
  m_objectCorners : List Vec3
  m_corners : List Point2

/-- The point pushed by the constructor loop for index `i`:
    `cv::Point3f(m_boardScaleFactor*(i / m_boardH), m_boardScaleFactor*(i % m_boardH), 0.0f)`. -/
def ChessboardTracker.objectCorner (scale boardH i : Nat) : Vec3 :=
  ⟨((scale * (i / boardH) : Nat) : ℚ), ((scale * (i % boardH) : Nat) : ℚ), 0⟩

/-- The constructor loop `for (int i = 0; i < m_numCorners; ++i) push_back(...)`,
    started from the list `acc`. -/
def ChessboardTracker.fillObjectCorners (scale boardH numCorners : Nat) (acc : List Vec3) :
    List Vec3 :=
  (List.range numCorners).foldl
    (fun corners i => corners ++ [ChessboardTracker.objectCorner scale boardH i]) acc

/-- The constructor `ChessboardTracker::ChessboardTracker`:
    `m_boardScaleFactor(25), m_boardH(9), m_numCorners(6*9), m_boardSize(cv::Size(6,9))`
    followed by the loop filling `m_objectCorners`. -/
def ChessboardTracker.new (calibParams : CalibrationParameters) : ChessboardTracker :=
  { MotionTracker.new with
    m_calibParams := calibParams
    m_boardScaleFactor := 25
    m_boardH := 9
    m_numCorners := 6 * 9
    m_boardSize := (6, 9)
    m_objectCorners := ChessboardTracker.fillObjectCorners 25 9 (6 * 9) []
    m_corners := [] }

/-- The member function `ChessboardTracker::frameEvent`. -/
def ChessboardTracker.frameEvent (cv : OpenCV) (t : ChessboardTracker) (frame : Mat) :
    ChessboardTracker :=
  let r := cv.findChessboardCorners frame t.m_boardSize
  let patternFound := r.1
  let t1 : ChessboardTracker := { t with m_corners := r.2 }
  if patternFound = true ∧ t1.m_corners.length = t1.m_numCorners then
    let s := cv.solvePnP t1.m_objectCorners t1.m_corners
      t1.m_calibParams.intrinsic_parameters t1.m_calibParams.distortion_coeffs
    let rot := s.1
    let pos := s.2
    { t1 with
      m_pos := ⟨pos.x, pos.y, pos.z⟩
      m_rot := ⟨rot.x, rot.y, rot.z⟩
      m_counter := t1.m_counter.call }
  else t1

/-- Feeding a sequence of frames to a chessboard tracker, one `frameEvent`
    per frame. -/
def ChessboardTracker.run (cv : OpenCV) (t : ChessboardTracker) (frames : List Mat) :
    ChessboardTracker :=
  frames.foldl (fun s frame => ChessboardTracker.frameEvent cv s frame) t

/-! ## ColorCrossTracker -/

/-- The class `ColorCrossTracker`.  The POSIT object `m_positObject` is
    created once from `m_modelPoints` and is represented by them. -/
structure ColorCrossTracker extends MotionTracker where
  m_calibParams : CalibrationParameters
  m_solver : Int
  m_objectPoints : List Vec3
  m_modelPoints : List Vec3
  m_imagePoints : List Point2
  m_srcImagePoints : List Point2
  m_projectedPoints : List Point2
  m_savedImagePoints : List Point2
  m_savedProjectedPoints : List Point2

/-- The constructor `ColorCrossTracker::ColorCrossTracker`. -/
def ColorCrossTracker.new (calibParams : CalibrationParameters) (solver : Int) :
    ColorCrossTracker :=
  { MotionTracker.new with
    m_calibParams := calibParams
    m_solver := solver
    m_objectPoints := [⟨0, 0, 0⟩, ⟨0, 100, 0⟩, ⟨100, 0, 0⟩, ⟨0, 0, 100⟩]
    m_modelPoints := [⟨0, 0, 0⟩, ⟨0, 100, 0⟩, ⟨100, 0, 0⟩, ⟨0, 0, 100⟩]
    m_imagePoints := []
    m_srcImagePoints := []
    m_projectedPoints := []
    m_savedImagePoints := []
    m_savedProjectedPoints := [] }

/-- The accessor `ColorCrossTracker::getImagePoints`. -/
def ColorCrossTracker.getImagePoints (t : ColorCrossTracker) : List Point2 :=
  t.m_savedImagePoints

/-- The accessor `ColorCrossTracker::getProjectedPoints`. -/
def ColorCrossTracker.getProjectedPoints (t : ColorCrossTracker) : List Point2 :=
  t.m_savedProjectedPoints

/-- The local variables `x` and `y` of `ColorCrossTracker::calculateImagePoint`:
    threshold, moments, and the two quotients converted to `int`. -/
def ColorCrossTracker.imagePointXY (cv : OpenCV) (frame : Mat)
    (hue dHue satval_low satval_high : Int) : Int × Int :=
  let thresh := cv.inRange frame ⟨hue - dHue, satval_low, satval_low⟩
    ⟨hue + dHue, satval_high, satval_high⟩
  let m := cv.moments thresh
  let x : Int := divToInt cv m.m10 m.m00
  let y : Int := divToInt cv m.m01 m.m00
  (x, y)

/-- The member function `ColorCrossTracker::calculateImagePoint`: the object
    afterwards and the returned flag. -/
def ColorCrossTracker.calculateImagePoint (cv : OpenCV) (t : ColorCrossTracker) (frame : Mat)
    (hue dHue satval_low satval_high : Int) : ColorCrossTracker × Bool :=
  let xy := ColorCrossTracker.imagePointXY cv frame hue dHue satval_low satval_high
  let x := xy.1
  let y := xy.2
  if x < 0 ∨ y < 0 then (t, false)
  else
    ({ t with
       m_imagePoints := t.m_imagePoints ++ [⟨(x : ℚ), (y : ℚ)⟩]
       m_srcImagePoints := t.m_srcImagePoints ++ [⟨(x : ℚ), (y : ℚ)⟩] }, true)

/-- The member function `ColorCrossTracker::solvePnP`. -/
def ColorCrossTracker.solvePnP (cv : OpenCV) (t : ColorCrossTracker) : ColorCrossTracker :=
  let s := cv.solvePnP t.m_objectPoints t.m_imagePoints
    t.m_calibParams.intrinsic_parameters t.m_calibParams.distortion_coeffs
  let rvec := s.1
  let tvec := s.2
  let projected := cv.projectPoints t.m_objectPoints rvec tvec
    t.m_calibParams.intrinsic_parameters t.m_calibParams.distortion_coeffs
  { t with
    m_projectedPoints := projected
    m_pos := tvec
    m_rot := rvec
    m_savedImagePoints := t.m_imagePoints
    m_savedProjectedPoints := projected }

/-- The constant `FOCAL_LENGTH` of `ColorCrossTracker::solvePOSIT`. -/
def FOCAL_LENGTH : ℚ := 1000

/-- The body of the re-projection loop of `solvePOSIT` for one model point:
    `point3D = R * p + t`, then `point2D`, initialised to `(0.0, 0.0)` and
    overwritten when `point3D.z != 0`.  The second component lists the
    divisors of the divisions that were carried out. -/
def ColorCrossTracker.reprojectTraced (R : Mat33) (tv : Vec3) (p : Vec3) : Point2 × List ℚ :=
  let point3D : Vec3 :=
    ⟨R.r0 * p.x + R.r1 * p.y + R.r2 * p.z + tv.x,
     R.r3 * p.x + R.r4 * p.y + R.r5 * p.z + tv.y,
     R.r6 * p.x + R.r7 * p.y + R.r8 * p.z + tv.z⟩
  if point3D.z ≠ 0 then
    (⟨FOCAL_LENGTH * point3D.x / point3D.z, FOCAL_LENGTH * point3D.y / point3D.z⟩,
     [point3D.z, point3D.z])
  else (⟨0, 0⟩, [])

/-- The point `point2D` pushed by one iteration of the re-projection loop. -/
def ColorCrossTracker.reproject (R : Mat33) (tv : Vec3) (p : Vec3) : Point2 :=
  (ColorCrossTracker.reprojectTraced R tv p).1

/-- The member function `ColorCrossTracker::solvePOSIT`.  The matrix `rotm` is
    a header over the local array `rotation_matrix`; `cv::Rodrigues` reads it
    while the array is alive, and `m_rotm = rotm` keeps the header, which
    refers to a dead local once the function has returned. -/
def ColorCrossTracker.solvePOSIT (cv : OpenCV) (t : ColorCrossTracker) : ColorCrossTracker :=
  let s := cv.cvPOSIT t.m_modelPoints t.m_srcImagePoints FOCAL_LENGTH
  let rotation_matrix := s.1
  let translation_vector := s.2
  let rot := cv.Rodrigues rotation_matrix
  let projected := t.m_modelPoints.foldl
    (fun acc p => acc ++ [ColorCrossTracker.reproject rotation_matrix translation_vector p])
    t.m_projectedPoints
  { t with
    m_projectedPoints := projected
    m_pos := ⟨translation_vector.x, translation_vector.y, translation_vector.z⟩
    m_rot := rot
    m_rotm := MatRef.deadLocal
    m_savedImagePoints := t.m_imagePoints
    m_savedProjectedPoints := projected }

/-- How a call of `ColorCrossTracker::frameEvent` ended: it returned without
    calling a solver, returned after calling one of the two solvers, or left
    by `throw std::runtime_error(what)`. -/
inductive Outcome
  | noSolver
  | ranSolvePnP
  | ranSolvePOSIT
  | threw (what : String)
  deriving DecidableEq, Repr

/-- Short-circuit `&&` between two calls of `calculateImagePoint`: the right
    operand runs only when the left one returned `true`. -/
def ColorCrossTracker.andAlso (r : ColorCrossTracker × Bool)
    (f : ColorCrossTracker → ColorCrossTracker × Bool) : ColorCrossTracker × Bool :=
  if r.2 = true then f r.1 else r

/-- The call `calculateImagePoint(imgHSV, hues.at<int>(i), dHues.at<int>(i),
    satval_l.at<int>(i), satval_h.at<int>(i))` of `frameEvent`. -/
def ColorCrossTracker.calculateMarker (cv : OpenCV) (imgHSV : Mat) (i : Fin 4)
    (t : ColorCrossTracker) : ColorCrossTracker × Bool :=
  ColorCrossTracker.calculateImagePoint cv t imgHSV (t.m_calibParams.hues i)
    (t.m_calibParams.dHues i) (t.m_calibParams.satval_l i) (t.m_calibParams.satval_h i)

/-- The condition of the `if` in `frameEvent`: the four calls of
    `calculateImagePoint` joined by `&&`, green, red, blue, yellow. -/
def ColorCrossTracker.calculateAll (cv : OpenCV) (imgHSV : Mat) (t : ColorCrossTracker) :
    ColorCrossTracker × Bool :=
  ColorCrossTracker.andAlso
    (ColorCrossTracker.andAlso
      (ColorCrossTracker.andAlso
        (ColorCrossTracker.calculateMarker cv imgHSV 0 t)
        (ColorCrossTracker.calculateMarker cv imgHSV 1))
      (ColorCrossTracker.calculateMarker cv imgHSV 2))
    (ColorCrossTracker.calculateMarker cv imgHSV 3)

/-- The statement `m_counter();` of `ColorCrossTracker::frameEvent`. -/
def ColorCrossTracker.updateFPS (t : ColorCrossTracker) : ColorCrossTracker :=
  { t with m_counter := t.m_counter.call }

/-- The member function `ColorCrossTracker::frameEvent`: the object afterwards
    and how the call ended.  When the function throws, the statement
    `m_counter()` after the `if` is not reached. -/
def ColorCrossTracker.frameEvent (cv : OpenCV) (t : ColorCrossTracker) (frame : Mat) :
    ColorCrossTracker × Outcome :=
  let t0 : ColorCrossTracker :=
    { t with m_imagePoints := [], m_srcImagePoints := [], m_projectedPoints := [] }
  let imgHSV := cv.cvtColor frame
  let r := ColorCrossTracker.calculateAll cv imgHSV t0
  if r.2 = true then
    if r.1.m_solver = 1 then
      (ColorCrossTracker.updateFPS (ColorCrossTracker.solvePnP cv r.1), Outcome.ranSolvePnP)
    else if r.1.m_solver = 2 then
      (ColorCrossTracker.updateFPS (ColorCrossTracker.solvePOSIT cv r.1), Outcome.ranSolvePOSIT)
    else (r.1, Outcome.threw "Bad solver type in ColorCrossTracker")
  else (ColorCrossTracker.updateFPS r.1, Outcome.noSolver)

/-- Feeding a sequence of frames to a tracker, one `frameEvent` per frame.
    A frame that throws leaves the object as `frameEvent` left it. -/
def ColorCrossTracker.run (cv : OpenCV) (t : ColorCrossTracker) (frames : List Mat) :
    ColorCrossTracker :=
  frames.foldl (fun s frame => (ColorCrossTracker.frameEvent cv s frame).1) t

/-! ## Definitions used to state the properties -/

/-- The centroid `(x, y)` that `calculateImagePoint` computes for marker `i`
    of a frame already converted to HSV, under calibration `c`. -/
def ColorCrossTracker.markerPoint (cv : OpenCV) (c : CalibrationParameters) (imgHSV : Mat)
    (i : Fin 4) : Point2 :=
  ⟨((ColorCrossTracker.imagePointXY cv imgHSV (c.hues i) (c.dHues i)
      (c.satval_l i) (c.satval_h i)).1 : ℚ),
   ((ColorCrossTracker.imagePointXY cv imgHSV (c.hues i) (c.dHues i)
      (c.satval_l i) (c.satval_h i)).2 : ℚ)⟩

/-- The test `x < 0 || y < 0` of `calculateImagePoint` for marker `i`. -/
abbrev ColorCrossTracker.markerMissing (cv : OpenCV) (c : CalibrationParameters) (imgHSV : Mat)
    (i : Fin 4) : Prop :=
  (ColorCrossTracker.imagePointXY cv imgHSV (c.hues i) (c.dHues i)
      (c.satval_l i) (c.satval_h i)).1 < 0 ∨
  (ColorCrossTracker.imagePointXY cv imgHSV (c.hues i) (c.dHues i)
      (c.satval_l i) (c.satval_h i)).2 < 0

/-- The two `push_back` statements of `calculateImagePoint`. -/
def ColorCrossTracker.pushImagePoint (t : ColorCrossTracker) (p : Point2) : ColorCrossTracker :=
  { t with
    m_imagePoints := t.m_imagePoints ++ [p]
    m_srcImagePoints := t.m_srcImagePoints ++ [p] }

/-- The tracker as `frameEvent` hands it to the solver when all four markers
    were found: scratch lists cleared, then the four centroids pushed. -/
def ColorCrossTracker.withFourPoints (cv : OpenCV) (t : ColorCrossTracker) (imgHSV : Mat) :
    ColorCrossTracker :=
  { t with
    m_imagePoints :=
      [ColorCrossTracker.markerPoint cv t.m_calibParams imgHSV 0,
       ColorCrossTracker.markerPoint cv t.m_calibParams imgHSV 1,
       ColorCrossTracker.markerPoint cv t.m_calibParams imgHSV 2,
       ColorCrossTracker.markerPoint cv t.m_calibParams imgHSV 3]
    m_srcImagePoints :=
      [ColorCrossTracker.markerPoint cv t.m_calibParams imgHSV 0,
       ColorCrossTracker.markerPoint cv t.m_calibParams imgHSV 1,
       ColorCrossTracker.markerPoint cv t.m_calibParams imgHSV 2,
       ColorCrossTracker.markerPoint cv t.m_calibParams imgHSV 3]
    m_projectedPoints := [] }

/-- The pair `(rotation_matrix, translation_vector)` that `cvPOSIT` returns
    when `frameEvent` calls `solvePOSIT` on a frame with all markers found. -/
def ColorCrossTracker.positResult (cv : OpenCV) (t : ColorCrossTracker) (imgHSV : Mat) :
    Mat33 × Vec3 :=
  cv.cvPOSIT t.m_modelPoints (ColorCrossTracker.withFourPoints cv t imgHSV).m_srcImagePoints
    FOCAL_LENGTH

/-- The pair `(rvec, tvec)` that `cv::solvePnP` returns when `frameEvent`
    calls `solvePnP` on a frame with all markers found. -/
def ColorCrossTracker.pnpResult (cv : OpenCV) (t : ColorCrossTracker) (imgHSV : Mat) :
    Vec3 × Vec3 :=
  cv.solvePnP t.m_objectPoints (ColorCrossTracker.withFourPoints cv t imgHSV).m_imagePoints
    t.m_calibParams.intrinsic_parameters t.m_calibParams.distortion_coeffs

/-- The camera-space point `P = R * p + t` of the pinhole relation, stated
    from the specification: row `k` of the row-major matrix `R` applied to the
    model point `p`, plus component `k` of the translation. -/
def cameraPoint (R : Mat33) (tv : Vec3) (p : Vec3) : Vec3 :=
  { x := (R.r0 * p.x + R.r1 * p.y + R.r2 * p.z) + tv.x
    y := (R.r3 * p.x + R.r4 * p.y + R.r5 * p.z) + tv.y
    z := (R.r6 * p.x + R.r7 * p.y + R.r8 * p.z) + tv.z }

/-- The pinhole relation of the specification: image coordinate = focal
    length x object coordinate / depth, and the origin for zero depth. -/
def pinhole (P : Vec3) : Point2 :=
  if P.z = 0 then ⟨0, 0⟩ else ⟨1000 * P.x / P.z, 1000 * P.y / P.z⟩

/-! ## A reference instantiation of the primitives

Thresholding and binary moments follow the OpenCV documentation; the pose
solvers are replaced by stand-ins with fixed, distinguishable outputs.  The
instantiation is used to evaluate the trackers on concrete frames. -/

/-- Channel `c` of a pixel. -/
def channel (px : List Int) (c : Nat) : Int := px.getD c 0

/-- Documented behaviour of `cv::inRange` on a three-channel image: an output
    pixel is 255 when every channel lies between the bounds, else 0. -/
def refInRange (src : Mat) (lo hi : Scalar) : Mat :=
  src.map (fun row => row.map (fun px =>
    if lo.v0 ≤ channel px 0 ∧ channel px 0 ≤ hi.v0 ∧
       lo.v1 ≤ channel px 1 ∧ channel px 1 ≤ hi.v1 ∧
       lo.v2 ≤ channel px 2 ∧ channel px 2 ≤ hi.v2 then [255] else [0]))

/-- Moments of one row `y` of a binary mask, scanning from column `x`. -/
def refRowMoments (y : Nat) : List (List Int) → Nat → Moments → Moments
  | [], _, acc => acc
  | px :: rest, x, acc =>
    refRowMoments y rest (x + 1)
      (if channel px 0 ≠ 0 then ⟨acc.m00 + 1, acc.m10 + x, acc.m01 + y⟩ else acc)

/-- Moments of a binary mask, scanning from row `y`. -/
def refMomentsFrom : List (List (List Int)) → Nat → Moments → Moments
  | [], _, acc => acc
  | row :: rest, y, acc => refMomentsFrom rest (y + 1) (refRowMoments y row 0 acc)

/-- Documented behaviour of `cv::moments(mask, true)`: every non-zero pixel
    counts as 1; `m00` is the area, `m10` and `m01` the coordinate sums. -/
def refMoments (mask : Mat) : Moments := refMomentsFrom mask 0 ⟨0, 0, 0⟩

/-- The reference primitives, for a platform whose conversion of a non-finite
    `double` to `int` gives `indefinite`.  Frames are supplied already in HSV,
    so the colour conversion is the identity. -/
def cvRef (indefinite : Int) : OpenCV :=
  { cvtColor := fun frame => frame
    inRange := refInRange
    moments := refMoments
    findChessboardCorners := fun frame size =>
      (frame.length = 1, (List.range (frame.length * size.1 * size.2)).map
        (fun i => (⟨(i : ℚ), 0⟩ : Point2)))
    solvePnP := fun _ image _ _ => (⟨1, 2, 3⟩, ⟨(image.length : ℚ), 5, 6⟩)
    projectPoints := fun object _ tvec _ _ =>
      object.map (fun p => (⟨p.x + tvec.x, p.y + tvec.y⟩ : Point2))
    cvPOSIT := fun _ image _ => (⟨0, 1, 0, 1, 0, 0, 0, 0, 1⟩, ⟨(image.length : ℚ), 8, -100⟩)
    Rodrigues := fun R => ⟨R.r0, R.r1, R.r8⟩
    indefinite := indefinite }

/-- The value x86 produces when a non-finite `double` is converted to `int`. -/
def INT_MIN : Int := -2147483648

/-- The nine floats of the stack region of `rotation_matrix` as the stand-in
    `cvPOSIT` of `cvRef` wrote them, before anything overwrites the region. -/
def stackAfterSolve : Mat33 := ⟨0, 1, 0, 1, 0, 0, 0, 0, 1⟩

/-- The nine floats of a stack region that later calls have overwritten with
    zeros. -/
def stackZeros : Mat33 := ⟨0, 0, 0, 0, 0, 0, 0, 0, 0⟩

/-- A 1x3 frame whose middle pixel has hue 60 and full saturation and value. -/
def frameBlobAt1 : Mat := [[[0, 0, 0], [60, 255, 255], [0, 0, 0]]]

/-- A 1x3 frame with no pixel inside any colour window. -/
def frameBlack : Mat := [[[0, 0, 0], [0, 0, 0], [0, 0, 0]]]

/-- A calibration in the 8-bit HSV scale of OpenCV (hue 0..179): intrinsics
    800 times the identity, no distortion, hues 60 (green), 0 (red),
    120 (blue), 30 (yellow) with half-width 10, and saturation/value bounds
    120 and 255. -/
def calibRef : CalibrationParameters :=
  { intrinsic_parameters := [800, 0, 0, 0, 800, 0, 0, 0, 800]
    distortion_coeffs := [0, 0, 0, 0]
    hues := ![60, 0, 120, 30]
    dHues := ![10, 10, 10, 10]
    satval_l := ![120, 120, 120, 120]
    satval_h := ![255, 255, 255, 255] }

/-- A 1x4 HSV frame showing the green, red, blue and yellow markers at
    columns 0, 1, 2 and 3. -/
def frameFour : Mat := [[[60, 255, 255], [0, 255, 255], [120, 255, 255], [30, 255, 255]]]

/-- A 1x4 HSV frame showing the green, red and blue markers only. -/
def frameThree : Mat := [[[60, 255, 255], [0, 255, 255], [120, 255, 255], [0, 0, 0]]]

end MotionTrackerModel

namespace MotionTrackerModel

/-! ## Auxiliary facts -/

/-- Truncation of a non-negative rational is its floor. -/
theorem truncToInt_of_nonneg {q : ℚ} (h : 0 ≤ q) : truncToInt q = ⌊q⌋ := by
  simp [truncToInt, h]

/-- With a non-zero divisor, `divToInt` truncates the quotient. -/
theorem divToInt_of_ne_zero (cv : OpenCV) (num : ℚ) {den : ℚ} (h : den ≠ 0) :
    divToInt cv num den = truncToInt (num / den) := by
  simp [divToInt, h]

/-- With a zero divisor, `divToInt` is the platform's indefinite value. -/
theorem divToInt_zero (cv : OpenCV) (num : ℚ) : divToInt cv num 0 = cv.indefinite := by
  simp [divToInt]

/-- A loop that pushes `f i` for each `i` of a list appends the mapped list. -/
theorem foldl_push_eq_append_map {α β : Type} (f : α → β) (l : List α) (acc : List β) :
    l.foldl (fun out a => out ++ [f a]) acc = acc ++ l.map f := by
  induction l generalizing acc with
  | nil => simp
  | cons a l ih => simp [ih]

/-! ## ColorTracker -/

/-- Claim C6. For every frame whose mask has positive area and non-negative
    first moments, `ColorTracker::frameEvent` publishes the position
    `(x, y, 0)` where `x` and `y` are the truncations of `M10/M00` and
    `M01/M00` (each within one unit below the exact ratio), and leaves the
    rotation at its prior value. -/
theorem colorTracker_centroid_of_nonzero_area (cv : OpenCV) (t : ColorTracker) (frame : Mat)
    (h00 : 0 < (cv.moments (ColorTracker.thresh cv t frame)).m00)
    (h10 : 0 ≤ (cv.moments (ColorTracker.thresh cv t frame)).m10)
    (h01 : 0 ≤ (cv.moments (ColorTracker.thresh cv t frame)).m01) :
    ∃ x y : Int,
      (ColorTracker.frameEvent cv t frame).m_pos = ⟨(x : ℚ), (y : ℚ), 0⟩ ∧
      x = truncToInt ((cv.moments (ColorTracker.thresh cv t frame)).m10 /
            (cv.moments (ColorTracker.thresh cv t frame)).m00) ∧
      y = truncToInt ((cv.moments (ColorTracker.thresh cv t frame)).m01 /
            (cv.moments (ColorTracker.thresh cv t frame)).m00) ∧
      |(cv.moments (ColorTracker.thresh cv t frame)).m10 /
          (cv.moments (ColorTracker.thresh cv t frame)).m00 - (x : ℚ)| < 1 ∧
      |(cv.moments (ColorTracker.thresh cv t frame)).m01 /
          (cv.moments (ColorTracker.thresh cv t frame)).m00 - (y : ℚ)| < 1 ∧
      (ColorTracker.frameEvent cv t frame).m_rot = t.m_rot := by
  set m := cv.moments (ColorTracker.thresh cv t frame) with hm
  have hne : m.m00 ≠ 0 := ne_of_gt h00
  have hx : 0 ≤ m.m10 / m.m00 := div_nonneg h10 (le_of_lt h00)
  have hy : 0 ≤ m.m01 / m.m00 := div_nonneg h01 (le_of_lt h00)
  refine ⟨truncToInt (m.m10 / m.m00), truncToInt (m.m01 / m.m00), ?_, rfl, rfl, ?_, ?_, rfl⟩
  · simp only [ColorTracker.frameEvent, ← hm, divToInt_of_ne_zero cv _ hne]
  · rw [truncToInt_of_nonneg hx, abs_lt]
    constructor
    · have := Int.floor_le (m.m10 / m.m00)
      linarith
    · have := Int.lt_floor_add_one (m.m10 / m.m00)
      linarith
  · rw [truncToInt_of_nonneg hy, abs_lt]
    constructor
    · have := Int.floor_le (m.m01 / m.m00)
      linarith
    · have := Int.lt_floor_add_one (m.m01 / m.m00)
      linarith

/-- Witness for C6: the 1x3 frame with one in-window pixel at column 1 has
    moments `(1, 1, 0)`; the published position is `(1, 0, 0)`. -/
theorem colorTracker_centroid_of_nonzero_area_witness :
    ((cvRef INT_MIN).moments
        (ColorTracker.thresh (cvRef INT_MIN) (ColorTracker.new 60) frameBlobAt1)) = ⟨1, 1, 0⟩ ∧
    ∃ x y : Int,
      (ColorTracker.frameEvent (cvRef INT_MIN) (ColorTracker.new 60) frameBlobAt1).m_pos
          = ⟨(x : ℚ), (y : ℚ), 0⟩ ∧
      x = truncToInt (((cvRef INT_MIN).moments
            (ColorTracker.thresh (cvRef INT_MIN) (ColorTracker.new 60) frameBlobAt1)).m10 /
            ((cvRef INT_MIN).moments
            (ColorTracker.thresh (cvRef INT_MIN) (ColorTracker.new 60) frameBlobAt1)).m00) ∧
      y = truncToInt (((cvRef INT_MIN).moments
            (ColorTracker.thresh (cvRef INT_MIN) (ColorTracker.new 60) frameBlobAt1)).m01 /
            ((cvRef INT_MIN).moments
            (ColorTracker.thresh (cvRef INT_MIN) (ColorTracker.new 60) frameBlobAt1)).m00) ∧
      |((cvRef INT_MIN).moments
            (ColorTracker.thresh (cvRef INT_MIN) (ColorTracker.new 60) frameBlobAt1)).m10 /
            ((cvRef INT_MIN).moments
            (ColorTracker.thresh (cvRef INT_MIN) (ColorTracker.new 60) frameBlobAt1)).m00
          - (x : ℚ)| < 1 ∧
      |((cvRef INT_MIN).moments
            (ColorTracker.thresh (cvRef INT_MIN) (ColorTracker.new 60) frameBlobAt1)).m01 /
            ((cvRef INT_MIN).moments
            (ColorTracker.thresh (cvRef INT_MIN) (ColorTracker.new 60) frameBlobAt1)).m00
          - (y : ℚ)| < 1 ∧
      (ColorTracker.frameEvent (cvRef INT_MIN) (ColorTracker.new 60) frameBlobAt1).m_rot
          = (ColorTracker.new 60).m_rot := by
  have hm : ((cvRef INT_MIN).moments
        (ColorTracker.thresh (cvRef INT_MIN) (ColorTracker.new 60) frameBlobAt1)) = ⟨1, 1, 0⟩ := by
    simp [ColorTracker.thresh, cvRef, refInRange, refMoments, refMomentsFrom, refRowMoments,
      frameBlobAt1, ColorTracker.new, channel]
  exact ⟨hm, colorTracker_centroid_of_nonzero_area (cvRef INT_MIN) (ColorTracker.new 60)
    frameBlobAt1 (by rw [hm]; norm_num) (by rw [hm]; norm_num) (by rw [hm])⟩

/-- Claim C1 (what the code does). For every frame whose mask has zero area,
    `ColorTracker::frameEvent` still divides by `M00`, converts the non-finite
    quotients to `int`, overwrites the position with those values and advances
    the frame-rate counter; the position does not depend on the one held
    before the frame. -/
theorem colorTracker_zero_area_overwrites (cv : OpenCV) (t : ColorTracker) (frame : Mat)
    (h00 : (cv.moments (ColorTracker.thresh cv t frame)).m00 = 0) :
    (ColorTracker.frameEvent cv t frame).m_pos
        = ⟨(cv.indefinite : ℚ), (cv.indefinite : ℚ), 0⟩ ∧
    (ColorTracker.frameEvent cv t frame).m_counter = t.m_counter.call ∧
    (ColorTracker.frameEvent cv t frame).m_rot = t.m_rot := by
  simp [ColorTracker.frameEvent, h00, divToInt_zero]

/-- Witness for C1: a tracker for hue 60 that has seen the blob at column 1
    publishes `(1, 0, 0)`; the next frame, with an empty mask, replaces that
    position by `(INT_MIN, INT_MIN, 0)`. -/
theorem colorTracker_zero_area_overwrites_witness :
    (ColorTracker.frameEvent (cvRef INT_MIN) (ColorTracker.new 60) frameBlobAt1).m_pos
        = ⟨1, 0, 0⟩ ∧
    ((cvRef INT_MIN).moments (ColorTracker.thresh (cvRef INT_MIN)
        (ColorTracker.frameEvent (cvRef INT_MIN) (ColorTracker.new 60) frameBlobAt1)
        frameBlack)).m00 = 0 ∧
    (ColorTracker.frameEvent (cvRef INT_MIN)
        (ColorTracker.frameEvent (cvRef INT_MIN) (ColorTracker.new 60) frameBlobAt1)
        frameBlack).m_pos = ⟨-2147483648, -2147483648, 0⟩ ∧
    (ColorTracker.frameEvent (cvRef INT_MIN)
        (ColorTracker.frameEvent (cvRef INT_MIN) (ColorTracker.new 60) frameBlobAt1)
        frameBlack).m_pos ≠
      (ColorTracker.frameEvent (cvRef INT_MIN) (ColorTracker.new 60) frameBlobAt1).m_pos := by
  have h1 : (ColorTracker.frameEvent (cvRef INT_MIN) (ColorTracker.new 60) frameBlobAt1).m_pos
      = ⟨1, 0, 0⟩ := by
    simp [ColorTracker.frameEvent, ColorTracker.thresh, cvRef, refInRange, refMoments,
      refMomentsFrom, refRowMoments, frameBlobAt1, ColorTracker.new, channel, divToInt,
      truncToInt]
  have h0 : ((cvRef INT_MIN).moments (ColorTracker.thresh (cvRef INT_MIN)
      (ColorTracker.frameEvent (cvRef INT_MIN) (ColorTracker.new 60) frameBlobAt1)
      frameBlack)).m00 = 0 := by
    simp [ColorTracker.frameEvent, ColorTracker.thresh, cvRef, refInRange, refMoments,
      refMomentsFrom, refRowMoments, frameBlack, ColorTracker.new, channel]
  have h2 := (colorTracker_zero_area_overwrites (cvRef INT_MIN)
      (ColorTracker.frameEvent (cvRef INT_MIN) (ColorTracker.new 60) frameBlobAt1)
      frameBlack h0).1
  have hi : (cvRef INT_MIN).indefinite = -2147483648 := rfl
  rw [hi] at h2
  refine ⟨h1, h0, ?_, ?_⟩
  · rw [h2]; norm_num
  · rw [h2, h1]
    intro h
    have := congrArg Vec3.x h
    norm_num at this

/-! ## ChessboardTracker -/

/-- The constructor loop produces the mapped index range. -/
theorem fillObjectCorners_eq_map (scale boardH numCorners : Nat) :
    ChessboardTracker.fillObjectCorners scale boardH numCorners []
      = (List.range numCorners).map (ChessboardTracker.objectCorner scale boardH) := by
  simp [ChessboardTracker.fillObjectCorners, foldl_push_eq_append_map]

/-- The object corners of a freshly constructed tracker. -/
theorem new_objectCorners (calib : CalibrationParameters) :
    (ChessboardTracker.new calib).m_objectCorners
      = (List.range 54).map (ChessboardTracker.objectCorner 25 9) := by
  show ChessboardTracker.fillObjectCorners 25 9 (6 * 9) [] = _
  rw [fillObjectCorners_eq_map]

/-- Two indices with the same grid point are equal. -/
theorem objectCorner_injective {i j : Nat}
    (h : ChessboardTracker.objectCorner 25 9 i = ChessboardTracker.objectCorner 25 9 j) :
    i = j := by
  have hx := congrArg Vec3.x h
  have hy := congrArg Vec3.y h
  simp only [ChessboardTracker.objectCorner] at hx hy
  have hx2 : 25 * (i / 9) = 25 * (j / 9) := by exact_mod_cast hx
  have hy2 : 25 * (i % 9) = 25 * (j % 9) := by exact_mod_cast hy
  have := Nat.div_add_mod i 9
  have := Nat.div_add_mod j 9
  omega

/-- Claim C8. The constructor of `ChessboardTracker` fills `m_objectCorners`
    with exactly 54 points; the point at index `i` is
    `(25*(i div 9), 25*(i mod 9), 0)`; every point has `z = 0`; the points are
    pairwise distinct; and a point belongs to the list exactly when it is
    `(25*a, 25*b, 0)` for some `a < 6` and `b < 9`. -/
theorem chessboard_object_corners_grid (calib : CalibrationParameters) :
    (ChessboardTracker.new calib).m_objectCorners.length = 54 ∧
    (ChessboardTracker.new calib).m_objectCorners.length
      = (ChessboardTracker.new calib).m_boardSize.1 * (ChessboardTracker.new calib).m_boardSize.2 ∧
    (∀ i : Fin 54, (ChessboardTracker.new calib).m_objectCorners[i.val]?
      = some ⟨((25 * (i.val / 9) : Nat) : ℚ), ((25 * (i.val % 9) : Nat) : ℚ), 0⟩) ∧
    (∀ p ∈ (ChessboardTracker.new calib).m_objectCorners, p.z = 0) ∧
    (ChessboardTracker.new calib).m_objectCorners.Nodup ∧
    (∀ p : Vec3, p ∈ (ChessboardTracker.new calib).m_objectCorners ↔
      ∃ a b : Nat, a < 6 ∧ b < 9 ∧ p = ⟨((25 * a : Nat) : ℚ), ((25 * b : Nat) : ℚ), 0⟩) := by
  rw [new_objectCorners]
  refine ⟨by simp, by simp [ChessboardTracker.new], ?_, ?_, ?_, ?_⟩
  · intro i
    rw [List.getElem?_map, List.getElem?_range i.isLt]
    rfl
  · intro p hp
    obtain ⟨i, _, rfl⟩ := List.mem_map.mp hp
    rfl
  · exact List.Nodup.map_on (fun i _ j _ h => objectCorner_injective h) (List.nodup_range 54)
  · intro p
    constructor
    · intro hp
      obtain ⟨i, hi, rfl⟩ := List.mem_map.mp hp
      have hi54 : i < 54 := List.mem_range.mp hi
      exact ⟨i / 9, i % 9, by omega, Nat.mod_lt i (by norm_num), rfl⟩
    · rintro ⟨a, b, ha, hb, rfl⟩
      refine List.mem_map.mpr ⟨9 * a + b, List.mem_range.mpr (by omega), ?_⟩
      have h1 : (9 * a + b) / 9 = a := by omega
      have h2 : (9 * a + b) % 9 = b := by omega
      simp only [ChessboardTracker.objectCorner, h1, h2]

/-- The member function `frameEvent` never changes the board geometry or the
    object corners of a chessboard tracker. -/
theorem chessboard_frameEvent_geometry (cv : OpenCV) (t : ChessboardTracker) (frame : Mat) :
    (ChessboardTracker.frameEvent cv t frame).m_numCorners = t.m_numCorners ∧
    (ChessboardTracker.frameEvent cv t frame).m_boardSize = t.m_boardSize := by
  unfold ChessboardTracker.frameEvent
  simp only
  split <;> exact ⟨rfl, rfl⟩

/-- Every tracker reached from the constructor has the 6x9 geometry. -/
theorem chessboard_run_geometry (cv : OpenCV) (calib : CalibrationParameters)
    (frames : List Mat) :
    (ChessboardTracker.run cv (ChessboardTracker.new calib) frames).m_numCorners = 54 ∧
    (ChessboardTracker.run cv (ChessboardTracker.new calib) frames).m_boardSize = (6, 9) := by
  have key : ∀ (fs : List Mat) (t : ChessboardTracker),
      t.m_numCorners = 54 ∧ t.m_boardSize = (6, 9) →
      (ChessboardTracker.run cv t fs).m_numCorners = 54 ∧
      (ChessboardTracker.run cv t fs).m_boardSize = (6, 9) := by
    intro fs
    induction fs with
    | nil => intro t h; exact h
    | cons f fs ih =>
      intro t h
      have g := chessboard_frameEvent_geometry cv t f
      exact ih (ChessboardTracker.frameEvent cv t f) ⟨g.1.trans h.1, g.2.trans h.2⟩
  exact key frames _ ⟨rfl, rfl⟩

/-- Claim C4. For a chessboard tracker in any state reached from its
    constructor, `frameEvent` writes position and rotation from the solver and
    advances the frame-rate counter when the detector reports `found` with
    exactly 54 = rows x columns corners, and otherwise leaves position,
    rotation, rotation matrix and counter as they were; the pose state changes
    if and only if that condition holds. -/
theorem chessboard_updates_iff_found_all (cv : OpenCV) (calib : CalibrationParameters)
    (frames : List Mat) (frame : Mat) :
    (ChessboardTracker.run cv (ChessboardTracker.new calib) frames).m_numCorners = 54 ∧
    (ChessboardTracker.run cv (ChessboardTracker.new calib) frames).m_boardSize.1 *
      (ChessboardTracker.run cv (ChessboardTracker.new calib) frames).m_boardSize.2 = 54 ∧
    (ChessboardTracker.frameEvent cv
        (ChessboardTracker.run cv (ChessboardTracker.new calib) frames) frame).toMotionTracker
      = (if (cv.findChessboardCorners frame (6, 9)).1 = true ∧
            (cv.findChessboardCorners frame (6, 9)).2.length = 54 then
          { m_pos := (cv.solvePnP
                (ChessboardTracker.run cv (ChessboardTracker.new calib) frames).m_objectCorners
                (cv.findChessboardCorners frame (6, 9)).2
                (ChessboardTracker.run cv (ChessboardTracker.new calib)
                  frames).m_calibParams.intrinsic_parameters
                (ChessboardTracker.run cv (ChessboardTracker.new calib)
                  frames).m_calibParams.distortion_coeffs).2
            m_rot := (cv.solvePnP
                (ChessboardTracker.run cv (ChessboardTracker.new calib) frames).m_objectCorners
                (cv.findChessboardCorners frame (6, 9)).2
                (ChessboardTracker.run cv (ChessboardTracker.new calib)
                  frames).m_calibParams.intrinsic_parameters
                (ChessboardTracker.run cv (ChessboardTracker.new calib)
                  frames).m_calibParams.distortion_coeffs).1
            m_rotm := (ChessboardTracker.run cv (ChessboardTracker.new calib) frames).m_rotm
            m_counter :=
              (ChessboardTracker.run cv (ChessboardTracker.new calib) frames).m_counter.call }
        else (ChessboardTracker.run cv (ChessboardTracker.new calib) frames).toMotionTracker) ∧
    ((ChessboardTracker.frameEvent cv
        (ChessboardTracker.run cv (ChessboardTracker.new calib) frames) frame).toMotionTracker
      ≠ (ChessboardTracker.run cv (ChessboardTracker.new calib) frames).toMotionTracker ↔
        ((cv.findChessboardCorners frame (6, 9)).1 = true ∧
          (cv.findChessboardCorners frame (6, 9)).2.length = 54)) := by
  obtain ⟨hn, hb⟩ := chessboard_run_geometry cv calib frames
  generalize ChessboardTracker.run cv (ChessboardTracker.new calib) frames = t at hn hb ⊢
  have hstate : (ChessboardTracker.frameEvent cv t frame).toMotionTracker
      = (if (cv.findChessboardCorners frame (6, 9)).1 = true ∧
            (cv.findChessboardCorners frame (6, 9)).2.length = 54 then
          { m_pos := (cv.solvePnP t.m_objectCorners (cv.findChessboardCorners frame (6, 9)).2
                t.m_calibParams.intrinsic_parameters t.m_calibParams.distortion_coeffs).2
            m_rot := (cv.solvePnP t.m_objectCorners (cv.findChessboardCorners frame (6, 9)).2
                t.m_calibParams.intrinsic_parameters t.m_calibParams.distortion_coeffs).1
            m_rotm := t.m_rotm
            m_counter := t.m_counter.call }
        else t.toMotionTracker) := by
    unfold ChessboardTracker.frameEvent
    simp only [hn, hb]
    split <;> rfl
  refine ⟨hn, by simp [hb], hstate, ?_⟩
  rw [hstate]
  by_cases hc : (cv.findChessboardCorners frame (6, 9)).1 = true ∧
      (cv.findChessboardCorners frame (6, 9)).2.length = 54
  · simp only [hc, and_self, if_true, iff_true]
    intro h
    have := congrArg (fun m => m.m_counter.ticks) h
    simp [FPSCounter.call] at this
  · simp [hc]

/-! ## ColorCrossTracker: the marker gate -/

/-- Normal form of one call of `calculateImagePoint` made by `frameEvent`. -/
theorem calculateMarker_eq (cv : OpenCV) (imgHSV : Mat) (i : Fin 4) (t : ColorCrossTracker) :
    ColorCrossTracker.calculateMarker cv imgHSV i t
      = if ColorCrossTracker.markerMissing cv t.m_calibParams imgHSV i then (t, false)
        else (ColorCrossTracker.pushImagePoint t
                (ColorCrossTracker.markerPoint cv t.m_calibParams imgHSV i), true) := rfl

/-- Pushing an image point leaves the calibration untouched. -/
theorem pushImagePoint_calib (t : ColorCrossTracker) (p : Point2) :
    (ColorCrossTracker.pushImagePoint t p).m_calibParams = t.m_calibParams := rfl

/-- When all four markers pass the test, the gate returns `true` and has
    pushed the four centroids, in marker order, on both scratch lists. -/
theorem calculateAll_found (cv : OpenCV) (imgHSV : Mat) (t : ColorCrossTracker)
    (h : ∀ i : Fin 4, ¬ ColorCrossTracker.markerMissing cv t.m_calibParams imgHSV i) :
    ColorCrossTracker.calculateAll cv imgHSV t
      = ({ t with
           m_imagePoints := t.m_imagePoints ++
             [ColorCrossTracker.markerPoint cv t.m_calibParams imgHSV 0,
              ColorCrossTracker.markerPoint cv t.m_calibParams imgHSV 1,
              ColorCrossTracker.markerPoint cv t.m_calibParams imgHSV 2,
              ColorCrossTracker.markerPoint cv t.m_calibParams imgHSV 3]
           m_srcImagePoints := t.m_srcImagePoints ++
             [ColorCrossTracker.markerPoint cv t.m_calibParams imgHSV 0,
              ColorCrossTracker.markerPoint cv t.m_calibParams imgHSV 1,
              ColorCrossTracker.markerPoint cv t.m_calibParams imgHSV 2,
              ColorCrossTracker.markerPoint cv t.m_calibParams imgHSV 3] }, true) := by
  have h0 := h 0
  have h1 := h 1
  have h2 := h 2
  have h3 := h 3
  simp only [ColorCrossTracker.calculateAll, ColorCrossTracker.andAlso, calculateMarker_eq,
    pushImagePoint_calib, h0, h1, h2, h3, if_false, if_true]
  simp [ColorCrossTracker.pushImagePoint]

/-- When some marker fails the test, the gate returns `false` and has touched
    nothing but the two scratch lists of image points. -/
theorem calculateAll_missing (cv : OpenCV) (imgHSV : Mat) (t : ColorCrossTracker)
    (h : ∃ i : Fin 4, ColorCrossTracker.markerMissing cv t.m_calibParams imgHSV i) :
    (ColorCrossTracker.calculateAll cv imgHSV t).2 = false ∧
    (ColorCrossTracker.calculateAll cv imgHSV t).1.toMotionTracker = t.toMotionTracker ∧
    (ColorCrossTracker.calculateAll cv imgHSV t).1.m_savedImagePoints = t.m_savedImagePoints ∧
    (ColorCrossTracker.calculateAll cv imgHSV t).1.m_savedProjectedPoints
      = t.m_savedProjectedPoints := by
  obtain ⟨i, hi⟩ := h
  by_cases h0 : ColorCrossTracker.markerMissing cv t.m_calibParams imgHSV 0
  · simp [ColorCrossTracker.calculateAll, ColorCrossTracker.andAlso, calculateMarker_eq, h0]
  by_cases h1 : ColorCrossTracker.markerMissing cv t.m_calibParams imgHSV 1
  · simp [ColorCrossTracker.calculateAll, ColorCrossTracker.andAlso, calculateMarker_eq,
      pushImagePoint_calib, h0, h1, ColorCrossTracker.pushImagePoint]
  by_cases h2 : ColorCrossTracker.markerMissing cv t.m_calibParams imgHSV 2
  · simp [ColorCrossTracker.calculateAll, ColorCrossTracker.andAlso, calculateMarker_eq,
      pushImagePoint_calib, h0, h1, h2, ColorCrossTracker.pushImagePoint]
  have h3 : ColorCrossTracker.markerMissing cv t.m_calibParams imgHSV 3 := by
    fin_cases i
    · exact absurd hi h0
    · exact absurd hi h1
    · exact absurd hi h2
    · exact hi
  simp [ColorCrossTracker.calculateAll, ColorCrossTracker.andAlso, calculateMarker_eq,
    pushImagePoint_calib, h0, h1, h2, h3, ColorCrossTracker.pushImagePoint]

/-- The flag returned by `calculateImagePoint` does not depend on the object
    it is called on: it is `false` exactly when `x < 0 || y < 0`. -/
theorem calculateImagePoint_snd_false_iff (cv : OpenCV) (s : ColorCrossTracker) (imgHSV : Mat)
    (c : CalibrationParameters) (i : Fin 4) :
    (ColorCrossTracker.calculateImagePoint cv s imgHSV (c.hues i) (c.dHues i)
        (c.satval_l i) (c.satval_h i)).2 = false
      ↔ ColorCrossTracker.markerMissing cv c imgHSV i := by
  unfold ColorCrossTracker.calculateImagePoint
  simp only
  split <;> simp_all

/-- The flag returned by `calculateImagePoint` is `true` exactly when the test
    `x < 0 || y < 0` fails. -/
theorem calculateImagePoint_snd_true_iff (cv : OpenCV) (s : ColorCrossTracker) (imgHSV : Mat)
    (c : CalibrationParameters) (i : Fin 4) :
    (ColorCrossTracker.calculateImagePoint cv s imgHSV (c.hues i) (c.dHues i)
        (c.satval_l i) (c.satval_h i)).2 = true
      ↔ ¬ ColorCrossTracker.markerMissing cv c imgHSV i := by
  unfold ColorCrossTracker.calculateImagePoint
  simp only
  split <;> simp_all

/-- A frame with a missing marker: `frameEvent` returns without calling a
    solver, leaves every published member as it was (for `m_rotm`, the header,
    not what it points at), and advances the frame-rate counter. -/
theorem frameEvent_of_missing (cv : OpenCV) (t : ColorCrossTracker) (frame : Mat)
    (h : ∃ i : Fin 4, ColorCrossTracker.markerMissing cv t.m_calibParams (cv.cvtColor frame) i) :
    (ColorCrossTracker.frameEvent cv t frame).2 = Outcome.noSolver ∧
    (ColorCrossTracker.frameEvent cv t frame).1.m_pos = t.m_pos ∧
    (ColorCrossTracker.frameEvent cv t frame).1.m_rot = t.m_rot ∧
    (ColorCrossTracker.frameEvent cv t frame).1.m_rotm = t.m_rotm ∧
    (ColorCrossTracker.frameEvent cv t frame).1.m_savedImagePoints = t.m_savedImagePoints ∧
    (ColorCrossTracker.frameEvent cv t frame).1.m_savedProjectedPoints
      = t.m_savedProjectedPoints ∧
    (ColorCrossTracker.frameEvent cv t frame).1.m_counter = t.m_counter.call := by
  obtain ⟨hb, hm, hs1, hs2⟩ := calculateAll_missing cv (cv.cvtColor frame)
    { t with m_imagePoints := [], m_srcImagePoints := [], m_projectedPoints := [] } h
  unfold ColorCrossTracker.frameEvent
  simp only [hb, Bool.false_eq_true, if_false, ColorCrossTracker.updateFPS, hm, hs1, hs2,
    and_self]

/-- A frame with all four markers found: `frameEvent` dispatches on the
    solver selector, with the scratch lists holding exactly the four centroids
    of this frame. -/
theorem frameEvent_of_found (cv : OpenCV) (t : ColorCrossTracker) (frame : Mat)
    (h : ∀ i : Fin 4,
      ¬ ColorCrossTracker.markerMissing cv t.m_calibParams (cv.cvtColor frame) i) :
    ColorCrossTracker.frameEvent cv t frame
      = if t.m_solver = 1 then
          (ColorCrossTracker.updateFPS (ColorCrossTracker.solvePnP cv
            (ColorCrossTracker.withFourPoints cv t (cv.cvtColor frame))), Outcome.ranSolvePnP)
        else if t.m_solver = 2 then
          (ColorCrossTracker.updateFPS (ColorCrossTracker.solvePOSIT cv
            (ColorCrossTracker.withFourPoints cv t (cv.cvtColor frame))), Outcome.ranSolvePOSIT)
        else (ColorCrossTracker.withFourPoints cv t (cv.cvtColor frame),
              Outcome.threw "Bad solver type in ColorCrossTracker") := by
  have hall := calculateAll_found cv (cv.cvtColor frame)
    { t with m_imagePoints := [], m_srcImagePoints := [], m_projectedPoints := [] } h
  unfold ColorCrossTracker.frameEvent
  simp only [hall, if_true, List.nil_append]
  rfl

/-! ## Evaluation on the reference frames -/

/-- The centroids of the four markers in `frameFour`. -/
theorem frameFour_imagePointXY (i : Fin 4) :
    ColorCrossTracker.imagePointXY (cvRef INT_MIN) frameFour (calibRef.hues i)
      (calibRef.dHues i) (calibRef.satval_l i) (calibRef.satval_h i) = ((i.val : Int), 0) := by
  fin_cases i <;>
    simp [ColorCrossTracker.imagePointXY, cvRef, refInRange, refMoments, refMomentsFrom,
      refRowMoments, frameFour, calibRef, channel, divToInt, truncToInt]

/-- In `frameFour` every marker passes the test of `calculateImagePoint`. -/
theorem frameFour_found (i : Fin 4) :
    ¬ ColorCrossTracker.markerMissing (cvRef INT_MIN) calibRef
        ((cvRef INT_MIN).cvtColor frameFour) i := by
  show ¬ ((ColorCrossTracker.imagePointXY (cvRef INT_MIN) frameFour (calibRef.hues i)
      (calibRef.dHues i) (calibRef.satval_l i) (calibRef.satval_h i)).1 < 0 ∨
    (ColorCrossTracker.imagePointXY (cvRef INT_MIN) frameFour (calibRef.hues i)
      (calibRef.dHues i) (calibRef.satval_l i) (calibRef.satval_h i)).2 < 0)
  rw [frameFour_imagePointXY]
  simp

/-- The four centroids computed for `frameFour`, in marker order. -/
theorem frameFour_markerPoints :
    [ColorCrossTracker.markerPoint (cvRef INT_MIN) calibRef ((cvRef INT_MIN).cvtColor frameFour) 0,
     ColorCrossTracker.markerPoint (cvRef INT_MIN) calibRef ((cvRef INT_MIN).cvtColor frameFour) 1,
     ColorCrossTracker.markerPoint (cvRef INT_MIN) calibRef ((cvRef INT_MIN).cvtColor frameFour) 2,
     ColorCrossTracker.markerPoint (cvRef INT_MIN) calibRef ((cvRef INT_MIN).cvtColor frameFour) 3]
      = [⟨0, 0⟩, ⟨1, 0⟩, ⟨2, 0⟩, ⟨3, 0⟩] := by
  simp [ColorCrossTracker.markerPoint, ColorCrossTracker.imagePointXY, cvRef, refInRange,
    refMoments, refMomentsFrom, refRowMoments, frameFour, calibRef, channel, divToInt,
    truncToInt]

/-- In `frameThree` the yellow marker fails the test of `calculateImagePoint`. -/
theorem frameThree_yellow_missing :
    ColorCrossTracker.markerMissing (cvRef INT_MIN) calibRef
      ((cvRef INT_MIN).cvtColor frameThree) 3 := by
  simp [ColorCrossTracker.markerMissing, ColorCrossTracker.imagePointXY, cvRef, refInRange,
    refMoments, refMomentsFrom, refRowMoments, frameThree, calibRef, channel, divToInt, INT_MIN]

/-- In `frameThree` the green, red and blue markers pass the test. -/
theorem frameThree_others_found :
    ¬ ColorCrossTracker.markerMissing (cvRef INT_MIN) calibRef
        ((cvRef INT_MIN).cvtColor frameThree) 0 ∧
    ¬ ColorCrossTracker.markerMissing (cvRef INT_MIN) calibRef
        ((cvRef INT_MIN).cvtColor frameThree) 1 ∧
    ¬ ColorCrossTracker.markerMissing (cvRef INT_MIN) calibRef
        ((cvRef INT_MIN).cvtColor frameThree) 2 := by
  refine ⟨?_, ?_, ?_⟩ <;>
  simp [ColorCrossTracker.markerMissing, ColorCrossTracker.imagePointXY, cvRef, refInRange,
    refMoments, refMomentsFrom, refRowMoments, frameThree, calibRef, channel, divToInt,
    truncToInt]

/-! ## ColorCrossTracker: frames with a missing marker -/

/-- Claim C5 (what the code does). For every frame in which at least one of
    the four markers is not found, `frameEvent` returns without calling a
    solver and has nevertheless executed `m_counter()`: the frame-rate counter
    has advanced by one and differs from the counter before the frame. -/
theorem colorCross_counter_advances_without_solve (cv : OpenCV)
    (t s : ColorCrossTracker) (frame : Mat)
    (h : ∃ i : Fin 4,
      (ColorCrossTracker.calculateImagePoint cv s (cv.cvtColor frame) (t.m_calibParams.hues i)
        (t.m_calibParams.dHues i) (t.m_calibParams.satval_l i)
        (t.m_calibParams.satval_h i)).2 = false) :
    (ColorCrossTracker.frameEvent cv t frame).2 = Outcome.noSolver ∧
    (ColorCrossTracker.frameEvent cv t frame).1.m_counter = t.m_counter.call ∧
    (ColorCrossTracker.frameEvent cv t frame).1.m_counter.ticks = t.m_counter.ticks + 1 ∧
    (ColorCrossTracker.frameEvent cv t frame).1.m_counter ≠ t.m_counter := by
  obtain ⟨i, hi⟩ := h
  have hm := frameEvent_of_missing cv t frame
    ⟨i, (calculateImagePoint_snd_false_iff cv s _ _ i).mp hi⟩
  have hc := hm.2.2.2.2.2.2
  refine ⟨hm.1, hc, ?_, ?_⟩
  · rw [hc]; rfl
  · rw [hc]
    intro heq
    have := congrArg FPSCounter.ticks heq
    simp [FPSCounter.call] at this

/-- Witness for C5: with the reference calibration, a frame showing only
    three of the four markers advances the frame-rate counter of a fresh
    tracker from 0 to 1. -/
theorem colorCross_counter_advances_without_solve_witness :
    (∃ i : Fin 4,
      (ColorCrossTracker.calculateImagePoint (cvRef INT_MIN) (ColorCrossTracker.new calibRef 1)
        ((cvRef INT_MIN).cvtColor frameThree)
        ((ColorCrossTracker.new calibRef 1).m_calibParams.hues i)
        ((ColorCrossTracker.new calibRef 1).m_calibParams.dHues i)
        ((ColorCrossTracker.new calibRef 1).m_calibParams.satval_l i)
        ((ColorCrossTracker.new calibRef 1).m_calibParams.satval_h i)).2 = false) ∧
    (ColorCrossTracker.new calibRef 1).m_counter = ⟨0⟩ ∧
    (ColorCrossTracker.frameEvent (cvRef INT_MIN) (ColorCrossTracker.new calibRef 1)
        frameThree).2 = Outcome.noSolver ∧
    (ColorCrossTracker.frameEvent (cvRef INT_MIN) (ColorCrossTracker.new calibRef 1)
        frameThree).1.m_counter = ⟨1⟩ ∧
    (ColorCrossTracker.frameEvent (cvRef INT_MIN) (ColorCrossTracker.new calibRef 1)
        frameThree).1.m_counter ≠ (ColorCrossTracker.new calibRef 1).m_counter :=
  have h : ∃ i : Fin 4,
      (ColorCrossTracker.calculateImagePoint (cvRef INT_MIN) (ColorCrossTracker.new calibRef 1)
        ((cvRef INT_MIN).cvtColor frameThree)
        ((ColorCrossTracker.new calibRef 1).m_calibParams.hues i)
        ((ColorCrossTracker.new calibRef 1).m_calibParams.dHues i)
        ((ColorCrossTracker.new calibRef 1).m_calibParams.satval_l i)
        ((ColorCrossTracker.new calibRef 1).m_calibParams.satval_h i)).2 = false :=
    ⟨3, (calculateImagePoint_snd_false_iff _ _ _ _ 3).mpr frameThree_yellow_missing⟩
  have r := colorCross_counter_advances_without_solve (cvRef INT_MIN)
    (ColorCrossTracker.new calibRef 1) (ColorCrossTracker.new calibRef 1) frameThree h
  ⟨h, rfl, r.1, r.2.1, r.2.2.2⟩

/-! ## ColorCrossTracker: frames with all four markers -/

/-- Claim C3. With a solver selector other than 1 and 2, a frame in which all
    four markers are found makes `frameEvent` throw
    `std::runtime_error("Bad solver type in ColorCrossTracker")`, and the
    position, rotation, rotation matrix, frame-rate counter, saved image
    points and saved projected points are those held before the frame. -/
theorem colorCross_bad_solver_throws (cv : OpenCV) (t s : ColorCrossTracker) (frame : Mat)
    (h1 : t.m_solver ≠ 1) (h2 : t.m_solver ≠ 2)
    (hall : ∀ i : Fin 4,
      (ColorCrossTracker.calculateImagePoint cv s (cv.cvtColor frame) (t.m_calibParams.hues i)
        (t.m_calibParams.dHues i) (t.m_calibParams.satval_l i)
        (t.m_calibParams.satval_h i)).2 = true) :
    (ColorCrossTracker.frameEvent cv t frame).2
      = Outcome.threw "Bad solver type in ColorCrossTracker" ∧
    (ColorCrossTracker.frameEvent cv t frame).1.m_pos = t.m_pos ∧
    (ColorCrossTracker.frameEvent cv t frame).1.m_rot = t.m_rot ∧
    (ColorCrossTracker.frameEvent cv t frame).1.m_rotm = t.m_rotm ∧
    (ColorCrossTracker.frameEvent cv t frame).1.m_counter = t.m_counter ∧
    (ColorCrossTracker.frameEvent cv t frame).1.getImagePoints = t.getImagePoints ∧
    (ColorCrossTracker.frameEvent cv t frame).1.getProjectedPoints = t.getProjectedPoints := by
  have hf := frameEvent_of_found cv t frame
    (fun i => (calculateImagePoint_snd_true_iff cv s _ _ i).mp (hall i))
  rw [hf, if_neg h1, if_neg h2]
  exact ⟨rfl, rfl, rfl, rfl, rfl, rfl, rfl⟩

/-- Witness for C3: solver selector 7 and the frame showing all four markers. -/
theorem colorCross_bad_solver_throws_witness :
    (ColorCrossTracker.new calibRef 7).m_solver ≠ 1 ∧
    (ColorCrossTracker.new calibRef 7).m_solver ≠ 2 ∧
    (ColorCrossTracker.frameEvent (cvRef INT_MIN) (ColorCrossTracker.new calibRef 7)
        frameFour).2 = Outcome.threw "Bad solver type in ColorCrossTracker" ∧
    (ColorCrossTracker.frameEvent (cvRef INT_MIN) (ColorCrossTracker.new calibRef 7)
        frameFour).1.m_counter = (ColorCrossTracker.new calibRef 7).m_counter ∧
    (ColorCrossTracker.frameEvent (cvRef INT_MIN) (ColorCrossTracker.new calibRef 7)
        frameFour).1.m_pos = (ColorCrossTracker.new calibRef 7).m_pos :=
  have h1 : (ColorCrossTracker.new calibRef 7).m_solver ≠ 1 := by decide
  have h2 : (ColorCrossTracker.new calibRef 7).m_solver ≠ 2 := by decide
  have r := colorCross_bad_solver_throws (cvRef INT_MIN) (ColorCrossTracker.new calibRef 7)
    (ColorCrossTracker.new calibRef 7) frameFour h1 h2
    (fun i => (calculateImagePoint_snd_true_iff _ _ _ _ i).mpr (frameFour_found i))
  ⟨h1, h2, r.1, r.2.2.2.2.1, r.2.1⟩

/-- Claim C7 (what the code does with solver 1). With the DirectPerspective
    solver, a frame in which all four markers are found replaces position and
    rotation by the translation and rotation vectors solved for that frame,
    and leaves the rotation matrix as it was before the frame. -/
theorem colorCross_pnp_keeps_old_rotation_matrix (cv : OpenCV) (t s : ColorCrossTracker)
    (frame : Mat) (hs : t.m_solver = 1)
    (hall : ∀ i : Fin 4,
      (ColorCrossTracker.calculateImagePoint cv s (cv.cvtColor frame) (t.m_calibParams.hues i)
        (t.m_calibParams.dHues i) (t.m_calibParams.satval_l i)
        (t.m_calibParams.satval_h i)).2 = true) :
    (ColorCrossTracker.frameEvent cv t frame).2 = Outcome.ranSolvePnP ∧
    (ColorCrossTracker.frameEvent cv t frame).1.m_pos
      = (ColorCrossTracker.pnpResult cv t (cv.cvtColor frame)).2 ∧
    (ColorCrossTracker.frameEvent cv t frame).1.m_rot
      = (ColorCrossTracker.pnpResult cv t (cv.cvtColor frame)).1 ∧
    (ColorCrossTracker.frameEvent cv t frame).1.m_rotm = t.m_rotm := by
  have hf := frameEvent_of_found cv t frame
    (fun i => (calculateImagePoint_snd_true_iff cv s _ _ i).mp (hall i))
  rw [hf, if_pos hs]
  exact ⟨rfl, rfl, rfl, rfl⟩

/-- Witness for C7: a fresh tracker with solver 1 sees the four-marker frame;
    the published rotation becomes the solved `(1, 2, 3)` while the published
    rotation matrix is still the identity set by the constructor. -/
theorem colorCross_pnp_keeps_old_rotation_matrix_witness :
    (ColorCrossTracker.new calibRef 1).m_solver = 1 ∧
    (ColorCrossTracker.frameEvent (cvRef INT_MIN) (ColorCrossTracker.new calibRef 1)
        frameFour).2 = Outcome.ranSolvePnP ∧
    (ColorCrossTracker.frameEvent (cvRef INT_MIN) (ColorCrossTracker.new calibRef 1)
        frameFour).1.m_pos = ⟨4, 5, 6⟩ ∧
    (ColorCrossTracker.frameEvent (cvRef INT_MIN) (ColorCrossTracker.new calibRef 1)
        frameFour).1.m_rot = ⟨1, 2, 3⟩ ∧
    (ColorCrossTracker.frameEvent (cvRef INT_MIN) (ColorCrossTracker.new calibRef 1)
        frameFour).1.m_rotm = MatRef.owned Mat33.eye := by
  have r := colorCross_pnp_keeps_old_rotation_matrix (cvRef INT_MIN)
    (ColorCrossTracker.new calibRef 1) (ColorCrossTracker.new calibRef 1) frameFour rfl
    (fun i => (calculateImagePoint_snd_true_iff _ _ _ _ i).mpr (frameFour_found i))
  refine ⟨rfl, r.1, ?_, ?_, ?_⟩
  · rw [r.2.1]
    simp [ColorCrossTracker.pnpResult, cvRef, ColorCrossTracker.withFourPoints]
  · rw [r.2.2.1]
    simp [ColorCrossTracker.pnpResult, cvRef]
  · rw [r.2.2.2]
    rfl

/-- With the IterativeApproximate solver, a frame in which all four markers
    are found replaces position and rotation from the one `cvPOSIT` result of
    that frame, and leaves in `m_rotm` a header over the local array of the
    finished call. -/
theorem colorCross_posit_updates_triple (cv : OpenCV) (t : ColorCrossTracker)
    (frame : Mat) (hs : t.m_solver = 2)
    (hall : ∀ i : Fin 4,
      ¬ ColorCrossTracker.markerMissing cv t.m_calibParams (cv.cvtColor frame) i) :
    (ColorCrossTracker.frameEvent cv t frame).1.m_pos
      = (ColorCrossTracker.positResult cv t (cv.cvtColor frame)).2 ∧
    (ColorCrossTracker.frameEvent cv t frame).1.m_rot
      = cv.Rodrigues (ColorCrossTracker.positResult cv t (cv.cvtColor frame)).1 ∧
    (ColorCrossTracker.frameEvent cv t frame).1.m_rotm = MatRef.deadLocal := by
  have h1 : ¬ t.m_solver = 1 := by rw [hs]; decide
  rw [frameEvent_of_found cv t frame hall, if_neg h1, if_pos hs]
  exact ⟨rfl, rfl, rfl⟩

/-! ## ColorCrossTracker: re-projection of the iterative solver -/

/-- The point pushed by the loop body is the pinhole image of `R * p + t`. -/
theorem reproject_eq_pinhole (R : Mat33) (tv p : Vec3) :
    ColorCrossTracker.reproject R tv p = pinhole (cameraPoint R tv p) := by
  unfold ColorCrossTracker.reproject ColorCrossTracker.reprojectTraced pinhole cameraPoint
    FOCAL_LENGTH
  by_cases hz : R.r6 * p.x + R.r7 * p.y + R.r8 * p.z + tv.z = 0
  · simp [hz]
  · simp [hz]

/-- Every division carried out by the loop body has a non-zero divisor. -/
theorem reprojectTraced_divisors_ne_zero (R : Mat33) (tv p : Vec3) :
    ∀ d ∈ (ColorCrossTracker.reprojectTraced R tv p).2, d ≠ 0 := by
  unfold ColorCrossTracker.reprojectTraced
  by_cases hz : R.r6 * p.x + R.r7 * p.y + R.r8 * p.z + tv.z = 0
  · simp [hz]
  · simp [hz]

/-- The member function `solvePOSIT` appends one re-projected point per model
    point, in model-point order, to the projected-points list it finds. -/
theorem solvePOSIT_projected (cv : OpenCV) (t : ColorCrossTracker) :
    (ColorCrossTracker.solvePOSIT cv t).m_savedProjectedPoints
      = t.m_projectedPoints ++ t.m_modelPoints.map
          (ColorCrossTracker.reproject
            (cv.cvPOSIT t.m_modelPoints t.m_srcImagePoints FOCAL_LENGTH).1
            (cv.cvPOSIT t.m_modelPoints t.m_srcImagePoints FOCAL_LENGTH).2) := by
  unfold ColorCrossTracker.solvePOSIT
  simp only [foldl_push_eq_append_map]

/-- Claim C9. With the IterativeApproximate solver and a frame in which all
    four markers are found, for the rotation matrix `R` and translation `t`
    returned by `cvPOSIT`: the published projected points have exactly one
    entry per model point, in model-point order; the entry for model point `p`
    with `P = R*p + t` is `(1000*P.x/P.z, 1000*P.y/P.z)` when `P.z != 0` and
    `(0, 0)` when `P.z = 0`; every division carried out has a non-zero
    divisor; and the published position is `t`. -/
theorem colorCross_posit_reprojection (cv : OpenCV) (t s : ColorCrossTracker) (frame : Mat)
    (hs : t.m_solver = 2)
    (hall : ∀ i : Fin 4,
      (ColorCrossTracker.calculateImagePoint cv s (cv.cvtColor frame) (t.m_calibParams.hues i)
        (t.m_calibParams.dHues i) (t.m_calibParams.satval_l i)
        (t.m_calibParams.satval_h i)).2 = true) :
    (ColorCrossTracker.frameEvent cv t frame).2 = Outcome.ranSolvePOSIT ∧
    (ColorCrossTracker.frameEvent cv t frame).1.getProjectedPoints
      = t.m_modelPoints.map (fun p =>
          if (cameraPoint (ColorCrossTracker.positResult cv t (cv.cvtColor frame)).1
                (ColorCrossTracker.positResult cv t (cv.cvtColor frame)).2 p).z = 0
          then (⟨0, 0⟩ : Point2)
          else
            ⟨1000 * (cameraPoint (ColorCrossTracker.positResult cv t (cv.cvtColor frame)).1
                (ColorCrossTracker.positResult cv t (cv.cvtColor frame)).2 p).x /
              (cameraPoint (ColorCrossTracker.positResult cv t (cv.cvtColor frame)).1
                (ColorCrossTracker.positResult cv t (cv.cvtColor frame)).2 p).z,
             1000 * (cameraPoint (ColorCrossTracker.positResult cv t (cv.cvtColor frame)).1
                (ColorCrossTracker.positResult cv t (cv.cvtColor frame)).2 p).y /
              (cameraPoint (ColorCrossTracker.positResult cv t (cv.cvtColor frame)).1
                (ColorCrossTracker.positResult cv t (cv.cvtColor frame)).2 p).z⟩) ∧
    (ColorCrossTracker.frameEvent cv t frame).1.getProjectedPoints.length
      = t.m_modelPoints.length ∧
    (∀ p ∈ t.m_modelPoints, ∀ d ∈ (ColorCrossTracker.reprojectTraced
        (ColorCrossTracker.positResult cv t (cv.cvtColor frame)).1
        (ColorCrossTracker.positResult cv t (cv.cvtColor frame)).2 p).2, d ≠ 0) ∧
    (ColorCrossTracker.frameEvent cv t frame).1.m_pos
      = (ColorCrossTracker.positResult cv t (cv.cvtColor frame)).2 := by
  have hfound : ∀ i : Fin 4,
      ¬ ColorCrossTracker.markerMissing cv t.m_calibParams (cv.cvtColor frame) i :=
    fun i => (calculateImagePoint_snd_true_iff cv s _ _ i).mp (hall i)
  have h1 : ¬ t.m_solver = 1 := by rw [hs]; decide
  have hproj : (ColorCrossTracker.frameEvent cv t frame).1.getProjectedPoints
      = t.m_modelPoints.map (fun p =>
          pinhole (cameraPoint (ColorCrossTracker.positResult cv t (cv.cvtColor frame)).1
            (ColorCrossTracker.positResult cv t (cv.cvtColor frame)).2 p)) := by
    rw [frameEvent_of_found cv t frame hfound, if_neg h1, if_pos hs]
    show (ColorCrossTracker.solvePOSIT cv
      (ColorCrossTracker.withFourPoints cv t (cv.cvtColor frame))).m_savedProjectedPoints = _
    rw [solvePOSIT_projected]
    simp only [ColorCrossTracker.withFourPoints, List.nil_append, ColorCrossTracker.positResult]
    exact List.map_congr_left (fun p _ => reproject_eq_pinhole _ _ p)
  refine ⟨?_, ?_, ?_, ?_, ?_⟩
  · rw [frameEvent_of_found cv t frame hfound, if_neg h1, if_pos hs]
  · rw [hproj]
    exact List.map_congr_left (fun p _ => rfl)
  · rw [hproj, List.length_map]
  · exact fun p _ => reprojectTraced_divisors_ne_zero _ _ p
  · exact (colorCross_posit_updates_triple cv t frame hs hfound).1

/-- Witness for C9: a fresh tracker with solver 2 sees the four-marker frame.
    The stand-in solver returns a matrix swapping x and y and the translation
    `(4, 8, -100)`; the fourth model point `(0, 0, 100)` lands at depth zero
    and is projected to the origin. -/
theorem colorCross_posit_reprojection_witness :
    (ColorCrossTracker.new calibRef 2).m_solver = 2 ∧
    (ColorCrossTracker.frameEvent (cvRef INT_MIN) (ColorCrossTracker.new calibRef 2)
        frameFour).2 = Outcome.ranSolvePOSIT ∧
    (ColorCrossTracker.frameEvent (cvRef INT_MIN) (ColorCrossTracker.new calibRef 2)
        frameFour).1.getProjectedPoints
      = [⟨-40, -80⟩, ⟨-1040, -80⟩, ⟨-40, -1080⟩, ⟨0, 0⟩] ∧
    (ColorCrossTracker.frameEvent (cvRef INT_MIN) (ColorCrossTracker.new calibRef 2)
        frameFour).1.m_pos = ⟨4, 8, -100⟩ := by
  have r := colorCross_posit_reprojection (cvRef INT_MIN)
    (ColorCrossTracker.new calibRef 2) (ColorCrossTracker.new calibRef 2) frameFour rfl
    (fun i => (calculateImagePoint_snd_true_iff _ _ _ _ i).mpr (frameFour_found i))
  have hres : ColorCrossTracker.positResult (cvRef INT_MIN) (ColorCrossTracker.new calibRef 2)
      ((cvRef INT_MIN).cvtColor frameFour) = (⟨0, 1, 0, 1, 0, 0, 0, 0, 1⟩, ⟨4, 8, -100⟩) := by
    simp [ColorCrossTracker.positResult, cvRef, ColorCrossTracker.withFourPoints]
  refine ⟨rfl, r.1, ?_, ?_⟩
  · rw [r.2.1, hres]
    simp [ColorCrossTracker.new, cameraPoint]
    norm_num
  · rw [r.2.2.2.2, hres]

/-! ## ColorCrossTracker: the published image points -/

/-- A frame on which a solver ran is a frame on which every marker passed the
    test of `calculateImagePoint`. -/
theorem found_of_solved (cv : OpenCV) (t : ColorCrossTracker) (frame : Mat)
    (h : (ColorCrossTracker.frameEvent cv t frame).2 = Outcome.ranSolvePnP ∨
         (ColorCrossTracker.frameEvent cv t frame).2 = Outcome.ranSolvePOSIT) :
    ∀ i : Fin 4, ¬ ColorCrossTracker.markerMissing cv t.m_calibParams (cv.cvtColor frame) i := by
  intro i hi
  have hm := (frameEvent_of_missing cv t frame ⟨i, hi⟩).1
  rw [hm] at h
  rcases h with h | h <;> exact absurd h (by decide)

/-- After any frame, the saved image points are either those saved before the
    frame or the four centroids of this frame. -/
theorem frameEvent_savedImagePoints_cases (cv : OpenCV) (t : ColorCrossTracker) (frame : Mat) :
    (ColorCrossTracker.frameEvent cv t frame).1.m_savedImagePoints = t.m_savedImagePoints ∨
    (ColorCrossTracker.frameEvent cv t frame).1.m_savedImagePoints
      = [ColorCrossTracker.markerPoint cv t.m_calibParams (cv.cvtColor frame) 0,
         ColorCrossTracker.markerPoint cv t.m_calibParams (cv.cvtColor frame) 1,
         ColorCrossTracker.markerPoint cv t.m_calibParams (cv.cvtColor frame) 2,
         ColorCrossTracker.markerPoint cv t.m_calibParams (cv.cvtColor frame) 3] := by
  by_cases hm : ∃ i : Fin 4,
      ColorCrossTracker.markerMissing cv t.m_calibParams (cv.cvtColor frame) i
  · exact Or.inl (frameEvent_of_missing cv t frame hm).2.2.2.2.1
  · have hfound : ∀ i : Fin 4,
        ¬ ColorCrossTracker.markerMissing cv t.m_calibParams (cv.cvtColor frame) i :=
      fun i hi => hm ⟨i, hi⟩
    rw [frameEvent_of_found cv t frame hfound]
    by_cases h1 : t.m_solver = 1
    · rw [if_pos h1]; exact Or.inr rfl
    · rw [if_neg h1]
      by_cases h2 : t.m_solver = 2
      · rw [if_pos h2]; exact Or.inr rfl
      · rw [if_neg h2]; exact Or.inl rfl

/-- The saved image points of a tracker fed any sequence of frames, starting
    from a state whose saved list has length 0 or 4, have length 0 or 4. -/
theorem run_savedImagePoints_length (cv : OpenCV) (frames : List Mat) :
    ∀ t : ColorCrossTracker,
      (t.m_savedImagePoints.length = 0 ∨ t.m_savedImagePoints.length = 4) →
      ((ColorCrossTracker.run cv t frames).m_savedImagePoints.length = 0 ∨
       (ColorCrossTracker.run cv t frames).m_savedImagePoints.length = 4) := by
  induction frames with
  | nil => intro t h; exact h
  | cons f fs ih =>
    intro t h
    apply ih (ColorCrossTracker.frameEvent cv t f).1
    rcases frameEvent_savedImagePoints_cases cv t f with hc | hc
    · rw [hc]; exact h
    · rw [hc]; exact Or.inr rfl

/-- The member function `frameEvent` never changes calibration or solver
    selector. -/
theorem frameEvent_config (cv : OpenCV) (t : ColorCrossTracker) (frame : Mat) :
    (ColorCrossTracker.frameEvent cv t frame).1.m_calibParams = t.m_calibParams ∧
    (ColorCrossTracker.frameEvent cv t frame).1.m_solver = t.m_solver := by
  by_cases hm : ∃ i : Fin 4,
      ColorCrossTracker.markerMissing cv t.m_calibParams (cv.cvtColor frame) i
  · obtain ⟨i, hi⟩ := hm
    by_cases h0 : ColorCrossTracker.markerMissing cv t.m_calibParams (cv.cvtColor frame) 0
    · simp [ColorCrossTracker.frameEvent, ColorCrossTracker.calculateAll,
        ColorCrossTracker.andAlso, calculateMarker_eq, h0, ColorCrossTracker.updateFPS]
    by_cases h1 : ColorCrossTracker.markerMissing cv t.m_calibParams (cv.cvtColor frame) 1
    · simp [ColorCrossTracker.frameEvent, ColorCrossTracker.calculateAll,
        ColorCrossTracker.andAlso, calculateMarker_eq, pushImagePoint_calib, h0, h1,
        ColorCrossTracker.pushImagePoint, ColorCrossTracker.updateFPS]
    by_cases h2 : ColorCrossTracker.markerMissing cv t.m_calibParams (cv.cvtColor frame) 2
    · simp [ColorCrossTracker.frameEvent, ColorCrossTracker.calculateAll,
        ColorCrossTracker.andAlso, calculateMarker_eq, pushImagePoint_calib, h0, h1, h2,
        ColorCrossTracker.pushImagePoint, ColorCrossTracker.updateFPS]
    have h3 : ColorCrossTracker.markerMissing cv t.m_calibParams (cv.cvtColor frame) 3 := by
      fin_cases i
      · exact absurd hi h0
      · exact absurd hi h1
      · exact absurd hi h2
      · exact hi
    simp [ColorCrossTracker.frameEvent, ColorCrossTracker.calculateAll,
      ColorCrossTracker.andAlso, calculateMarker_eq, pushImagePoint_calib, h0, h1, h2, h3,
      ColorCrossTracker.pushImagePoint, ColorCrossTracker.updateFPS]
  · have hfound : ∀ i : Fin 4,
        ¬ ColorCrossTracker.markerMissing cv t.m_calibParams (cv.cvtColor frame) i :=
      fun i hi => hm ⟨i, hi⟩
    rw [frameEvent_of_found cv t frame hfound]
    by_cases h1 : t.m_solver = 1
    · rw [if_pos h1]; exact ⟨rfl, rfl⟩
    · rw [if_neg h1]
      by_cases h2 : t.m_solver = 2
      · rw [if_pos h2]; exact ⟨rfl, rfl⟩
      · rw [if_neg h2]; exact ⟨rfl, rfl⟩

/-- After the three-marker frame the scratch list of a fresh tracker holds the
    three centroids that were found before the gate gave up. -/
theorem frameThree_leaves_three_in_scratch :
    (ColorCrossTracker.frameEvent (cvRef INT_MIN) (ColorCrossTracker.new calibRef 1)
        frameThree).1.m_imagePoints.length = 3 := by
  have h0 := frameThree_others_found.1
  have h1 := frameThree_others_found.2.1
  have h2 := frameThree_others_found.2.2
  have h3 := frameThree_yellow_missing
  have hc : (ColorCrossTracker.new calibRef 1).m_calibParams = calibRef := rfl
  simp only [ColorCrossTracker.frameEvent, ColorCrossTracker.calculateAll,
    ColorCrossTracker.andAlso, calculateMarker_eq, pushImagePoint_calib, hc, h0, h1, h2, h3,
    if_false, if_true, Bool.false_eq_true]
  rfl

/-- Claim C10. For a tracker fed any sequence of frames from construction, the
    published image points have length 0 or 4; and from any state of the
    object, whatever its scratch lists hold, a frame on which a solver ran
    publishes exactly the four centroids computed for markers 0, 1, 2, 3 of
    that frame, in that order. -/
theorem colorCross_image_points_fresh (cv : OpenCV) (calib : CalibrationParameters)
    (solver : Int) (frames : List Mat) (t : ColorCrossTracker) (frame : Mat) :
    ((ColorCrossTracker.run cv (ColorCrossTracker.new calib solver)
        frames).getImagePoints.length = 0 ∨
     (ColorCrossTracker.run cv (ColorCrossTracker.new calib solver)
        frames).getImagePoints.length = 4) ∧
    ((ColorCrossTracker.frameEvent cv t frame).2 = Outcome.ranSolvePnP ∨
      (ColorCrossTracker.frameEvent cv t frame).2 = Outcome.ranSolvePOSIT →
      (ColorCrossTracker.frameEvent cv t frame).1.getImagePoints
        = [ColorCrossTracker.markerPoint cv t.m_calibParams (cv.cvtColor frame) 0,
           ColorCrossTracker.markerPoint cv t.m_calibParams (cv.cvtColor frame) 1,
           ColorCrossTracker.markerPoint cv t.m_calibParams (cv.cvtColor frame) 2,
           ColorCrossTracker.markerPoint cv t.m_calibParams (cv.cvtColor frame) 3]) := by
  refine ⟨run_savedImagePoints_length cv frames _ (Or.inl rfl), ?_⟩
  intro hsolved
  have hfound := found_of_solved cv t frame hsolved
  have hf := frameEvent_of_found cv t frame hfound
  rw [hf] at hsolved ⊢
  by_cases h1 : t.m_solver = 1
  · rw [if_pos h1]; rfl
  · rw [if_neg h1] at hsolved ⊢
    by_cases h2 : t.m_solver = 2
    · rw [if_pos h2]; rfl
    · rw [if_neg h2] at hsolved
      rcases hsolved with h | h <;> simp at h

/-- Witness for C10: a fresh tracker first sees the three-marker frame, which
    leaves three entries in the scratch list, then the four-marker frame; the
    published image points are the four centroids of the second frame. -/
theorem colorCross_image_points_fresh_witness :
    (ColorCrossTracker.frameEvent (cvRef INT_MIN) (ColorCrossTracker.new calibRef 1)
        frameThree).1.m_imagePoints.length = 3 ∧
    (ColorCrossTracker.frameEvent (cvRef INT_MIN)
        (ColorCrossTracker.frameEvent (cvRef INT_MIN) (ColorCrossTracker.new calibRef 1)
          frameThree).1 frameFour).2 = Outcome.ranSolvePnP ∧
    (ColorCrossTracker.frameEvent (cvRef INT_MIN)
        (ColorCrossTracker.frameEvent (cvRef INT_MIN) (ColorCrossTracker.new calibRef 1)
          frameThree).1 frameFour).1.getImagePoints
      = [⟨0, 0⟩, ⟨1, 0⟩, ⟨2, 0⟩, ⟨3, 0⟩] ∧
    ((ColorCrossTracker.run (cvRef INT_MIN) (ColorCrossTracker.new calibRef 1)
        [frameThree, frameFour]).getImagePoints.length = 0 ∨
     (ColorCrossTracker.run (cvRef INT_MIN) (ColorCrossTracker.new calibRef 1)
        [frameThree, frameFour]).getImagePoints.length = 4) := by
  have hcfg := frameEvent_config (cvRef INT_MIN) (ColorCrossTracker.new calibRef 1) frameThree
  have hc : (ColorCrossTracker.frameEvent (cvRef INT_MIN) (ColorCrossTracker.new calibRef 1)
      frameThree).1.m_calibParams = calibRef := hcfg.1
  have hs : (ColorCrossTracker.frameEvent (cvRef INT_MIN) (ColorCrossTracker.new calibRef 1)
      frameThree).1.m_solver = 1 := hcfg.2
  have hfound : ∀ i : Fin 4, ¬ ColorCrossTracker.markerMissing (cvRef INT_MIN)
      (ColorCrossTracker.frameEvent (cvRef INT_MIN) (ColorCrossTracker.new calibRef 1)
        frameThree).1.m_calibParams ((cvRef INT_MIN).cvtColor frameFour) i := by
    rw [hc]; exact frameFour_found
  have hout : (ColorCrossTracker.frameEvent (cvRef INT_MIN)
      (ColorCrossTracker.frameEvent (cvRef INT_MIN) (ColorCrossTracker.new calibRef 1)
        frameThree).1 frameFour).2 = Outcome.ranSolvePnP := by
    rw [frameEvent_of_found _ _ _ hfound, if_pos hs]
  have r := colorCross_image_points_fresh (cvRef INT_MIN) calibRef 1 [frameThree, frameFour]
    (ColorCrossTracker.frameEvent (cvRef INT_MIN) (ColorCrossTracker.new calibRef 1)
      frameThree).1 frameFour
  refine ⟨frameThree_leaves_three_in_scratch, hout, ?_, r.1⟩
  rw [r.2 (Or.inl hout), hc]
  exact frameFour_markerPoints

/-! ## ColorCrossTracker: the published rotation matrix after an iterative solve -/

/-- Claim C2 (what the code does after an IterativeApproximate solve). Let a
    tracker with solver 2 process a frame with all four markers found and then
    a frame in which `calculateImagePoint` reports "not found" for some
    marker.  The second frame returns without invoking a solver and leaves
    position, rotation, saved image points and saved projected points as the
    first frame published them.  The rotation matrix is not covered: after the
    first frame `m_rotm` is a header over the local array of the finished
    `solvePOSIT` call, so `getRotationMatrix` yields the current contents of
    that stack region, before the second frame and after it. -/
theorem colorCross_rotation_matrix_reads_dead_stack (cv : OpenCV) (t s : ColorCrossTracker)
    (solved missing : Mat) (hs : t.m_solver = 2)
    (hall : ∀ i : Fin 4,
      (ColorCrossTracker.calculateImagePoint cv s (cv.cvtColor solved) (t.m_calibParams.hues i)
        (t.m_calibParams.dHues i) (t.m_calibParams.satval_l i)
        (t.m_calibParams.satval_h i)).2 = true)
    (hmiss : ∃ i : Fin 4,
      (ColorCrossTracker.calculateImagePoint cv s (cv.cvtColor missing) (t.m_calibParams.hues i)
        (t.m_calibParams.dHues i) (t.m_calibParams.satval_l i)
        (t.m_calibParams.satval_h i)).2 = false) :
    (ColorCrossTracker.frameEvent cv t solved).2 = Outcome.ranSolvePOSIT ∧
    (ColorCrossTracker.frameEvent cv t solved).1.m_rotm = MatRef.deadLocal ∧
    (ColorCrossTracker.frameEvent cv
        (ColorCrossTracker.frameEvent cv t solved).1 missing).2 = Outcome.noSolver ∧
    (ColorCrossTracker.frameEvent cv
        (ColorCrossTracker.frameEvent cv t solved).1 missing).1.m_pos
      = (ColorCrossTracker.frameEvent cv t solved).1.m_pos ∧
    (ColorCrossTracker.frameEvent cv
        (ColorCrossTracker.frameEvent cv t solved).1 missing).1.m_rot
      = (ColorCrossTracker.frameEvent cv t solved).1.m_rot ∧
    (ColorCrossTracker.frameEvent cv
        (ColorCrossTracker.frameEvent cv t solved).1 missing).1.getImagePoints
      = (ColorCrossTracker.frameEvent cv t solved).1.getImagePoints ∧
    (ColorCrossTracker.frameEvent cv
        (ColorCrossTracker.frameEvent cv t solved).1 missing).1.getProjectedPoints
      = (ColorCrossTracker.frameEvent cv t solved).1.getProjectedPoints ∧
    (ColorCrossTracker.frameEvent cv
        (ColorCrossTracker.frameEvent cv t solved).1 missing).1.m_rotm = MatRef.deadLocal ∧
    (∀ stackBefore stackAfter : Mat33,
      MotionTracker.getRotationMatrix stackBefore
          (ColorCrossTracker.frameEvent cv t solved).1.toMotionTracker = stackBefore ∧
      MotionTracker.getRotationMatrix stackAfter
          (ColorCrossTracker.frameEvent cv
            (ColorCrossTracker.frameEvent cv t solved).1 missing).1.toMotionTracker
        = stackAfter) := by
  have hfound : ∀ i : Fin 4,
      ¬ ColorCrossTracker.markerMissing cv t.m_calibParams (cv.cvtColor solved) i :=
    fun i => (calculateImagePoint_snd_true_iff cv s _ _ i).mp (hall i)
  have h1 : ¬ t.m_solver = 1 := by rw [hs]; decide
  have hout : (ColorCrossTracker.frameEvent cv t solved).2 = Outcome.ranSolvePOSIT := by
    rw [frameEvent_of_found cv t solved hfound, if_neg h1, if_pos hs]
  have hdead : (ColorCrossTracker.frameEvent cv t solved).1.m_rotm = MatRef.deadLocal :=
    (colorCross_posit_updates_triple cv t solved hs hfound).2.2
  have hcal := (frameEvent_config cv t solved).1
  obtain ⟨i, hi⟩ := hmiss
  have hm := frameEvent_of_missing cv (ColorCrossTracker.frameEvent cv t solved).1 missing
    ⟨i, by rw [hcal]; exact (calculateImagePoint_snd_false_iff cv s _ _ i).mp hi⟩
  have hdead2 : (ColorCrossTracker.frameEvent cv
      (ColorCrossTracker.frameEvent cv t solved).1 missing).1.m_rotm = MatRef.deadLocal :=
    hm.2.2.2.1.trans hdead
  refine ⟨hout, hdead, hm.1, hm.2.1, hm.2.2.1, hm.2.2.2.2.1, hm.2.2.2.2.2.1, hdead2, ?_⟩
  intro stackBefore stackAfter
  constructor
  · unfold MotionTracker.getRotationMatrix
    rw [hdead]
  · unfold MotionTracker.getRotationMatrix
    rw [hdead2]

/-- Witness for C2: a fresh tracker with solver 2 sees the four-marker frame
    and then the three-marker frame.  Reading the rotation matrix when the
    stack still holds what `solvePOSIT` wrote, and again after later calls
    have overwritten the region with zeros, gives two different matrices. -/
theorem colorCross_rotation_matrix_reads_dead_stack_witness :
    (ColorCrossTracker.new calibRef 2).m_solver = 2 ∧
    (ColorCrossTracker.frameEvent (cvRef INT_MIN) (ColorCrossTracker.new calibRef 2)
        frameFour).2 = Outcome.ranSolvePOSIT ∧
    (ColorCrossTracker.frameEvent (cvRef INT_MIN)
        (ColorCrossTracker.frameEvent (cvRef INT_MIN) (ColorCrossTracker.new calibRef 2)
          frameFour).1 frameThree).2 = Outcome.noSolver ∧
    MotionTracker.getRotationMatrix stackAfterSolve
        (ColorCrossTracker.frameEvent (cvRef INT_MIN) (ColorCrossTracker.new calibRef 2)
          frameFour).1.toMotionTracker = stackAfterSolve ∧
    MotionTracker.getRotationMatrix stackZeros
        (ColorCrossTracker.frameEvent (cvRef INT_MIN)
          (ColorCrossTracker.frameEvent (cvRef INT_MIN) (ColorCrossTracker.new calibRef 2)
            frameFour).1 frameThree).1.toMotionTracker = stackZeros ∧
    MotionTracker.getRotationMatrix stackZeros
        (ColorCrossTracker.frameEvent (cvRef INT_MIN)
          (ColorCrossTracker.frameEvent (cvRef INT_MIN) (ColorCrossTracker.new calibRef 2)
            frameFour).1 frameThree).1.toMotionTracker
      ≠ MotionTracker.getRotationMatrix stackAfterSolve
        (ColorCrossTracker.frameEvent (cvRef INT_MIN) (ColorCrossTracker.new calibRef 2)
          frameFour).1.toMotionTracker := by
  have r := colorCross_rotation_matrix_reads_dead_stack (cvRef INT_MIN)
    (ColorCrossTracker.new calibRef 2) (ColorCrossTracker.new calibRef 2) frameFour frameThree
    rfl (fun i => (calculateImagePoint_snd_true_iff _ _ _ _ i).mpr (frameFour_found i))
    ⟨3, (calculateImagePoint_snd_false_iff _ _ _ _ 3).mpr frameThree_yellow_missing⟩
  have hread := r.2.2.2.2.2.2.2.2 stackAfterSolve stackZeros
  refine ⟨rfl, r.1, r.2.2.1, hread.1, hread.2, ?_⟩
  rw [hread.1, hread.2]
  decide

end MotionTrackerModel
